import Mathlib

/-!
# Signalling core of `src/webrtc/server/app02.js`

A shallow embedding of the socket.io handlers that negotiate mediasoup
transports, producers and consumers.

* The three module-level objects `transports`, `producers`, `consumers` are
  association lists keyed by `socket.id`, in insertion order.
* The media engine (mediasoup) and the client are outside the program: the result
  of every awaited engine call, of `router.canConsume`, of every `close()` and
  of the client's acknowledgement is an input of the model.
* An `async` handler is cut at its `await`s.  Each run-to-suspension segment is a
  function from the state at that moment to an `Outcome`; a suspended handler is
  a `Cont` stored in `State.pending` together with the values its closure
  captured.
* `callback(x)` is the effect `reply`, `socket.emit` / `socket.broadcast.emit` /
  `io.emit` are `emit` effects (one per receiving socket), and every engine
  method the handler invokes is logged as a `call` effect.
* Requests carry their `callback`.  The argument of `produce`, of
  `connect*Transport` and of the client's acknowledgement may be missing
  (`ProducePayload`, `Payload`); `consume` carries an object whose fields are
  the arguments of `consume_start`.
* `getRouterRtpCapabilities` reads `router.rtpCapabilities` only and is left
  out, as are the worker and router bootstrap and the HTTPS server.
-/

namespace Sfu

/-! ## Data model -/

/-- The identity of a connection, `socket.id`. -/
abbrev ClientId := String

/-- A mediasoup WebRTC transport as the handlers see it: its id and the three
parameter blocks that are sent back to the client. -/
structure Transport where
  id : Nat
  iceParameters : Nat
  iceCandidates : Nat
  dtlsParameters : Nat
deriving DecidableEq, Repr

/-- What `transport.produce(...)` resolves to: the fields of the producer the
handlers read. -/
structure ProducerData where
  id : Nat
  kind : String
deriving DecidableEq, Repr

/-- What `transport.consume(...)` resolves to: the fields of the consumer the
handlers read. -/
structure ConsumerData where
  id : Nat
  kind : String
  rtpParameters : Nat
deriving DecidableEq, Repr

/-- A producer object held in `producers[socket.id]`; `transport` is the id of
the transport object whose `produce` method created it. -/
structure Producer where
  id : Nat
  kind : String
  transport : Nat
deriving DecidableEq, Repr

/-- A consumer object held in `consumers[socket.id]`; `transport` is the id of
the transport object whose `consume` method created it. -/
structure Consumer where
  id : Nat
  kind : String
  rtpParameters : Nat
  transport : Nat
deriving DecidableEq, Repr

/-- The value `transports[socket.id]`. -/
structure TransportRecord where
  producerTransport : Option Transport
  consumerTransports : List Transport
deriving DecidableEq, Repr

/-- The single argument a client passes with `connect*Transport` or with its
acknowledgement of `getDtlsParametersForConsumer`: nothing at all, or an object
whose `dtlsParameters` field may be absent. -/
inductive Payload where
  | undefined
  | object (dtlsParameters : Option Nat)
deriving DecidableEq, Repr

/-- The single argument a client passes with `produce`: nothing at all, or an
object with the two fields the handler binds. -/
inductive ProducePayload where
  | undefined
  | object (kind : String) (rtpParameters : Nat)
deriving DecidableEq, Repr

/-- The engine methods invoked by the handlers. -/
inductive EngineCall where
  | createWebRtcTransport
  | connect (transport : Nat) (dtlsParameters : Option Nat)
  | produce (transport : Nat) (kind : String) (rtpParameters : Nat)
  | consume (transport : Nat) (producerId : Nat) (rtpCapabilities : Nat)
  | closeTransport (transport : Nat)
  | closeProducer (producer : Nat)
  | closeConsumer (consumer : Nat)
deriving DecidableEq, Repr

/-- The argument of `callback(...)`. -/
inductive Reply where
  | error (message : String)
  | ack
  | transportParams (id iceParameters iceCandidates dtlsParameters : Nat)
  | produced (id : Nat)
  | consumed (id producerId : Nat) (kind : String) (rtpParameters : Nat)
deriving DecidableEq, Repr

/-- The messages the server emits on its own initiative. -/
inductive Notification where
  | newProducer (producerId : Nat) (clientId : ClientId) (kind : String)
  | removeClient (clientId : ClientId)
  | getDtlsParametersForConsumer
deriving DecidableEq, Repr

/-- The observable actions of a handler segment. -/
inductive Effect where
  | reply (dest : ClientId) (r : Reply)
  | emit (dest : ClientId) (n : Notification)
  | call (c : EngineCall)
deriving DecidableEq, Repr

/-- A handler suspended at an `await` (or waiting for the client's
acknowledgement), with the values captured by its closure. -/
inductive Cont where
  | createProducerTransport (client : ClientId)
  | createConsumerTransport (client : ClientId)
  | connectTransport (client : ClientId) (t : Transport)
  | produce (client : ClientId) (t : Transport) (kind : String)
  | consumeCreate (client : ClientId) (producerId rtpCapabilities : Nat)
  | consumeDirect (client : ClientId) (t : Transport) (producerId : Nat)
  | dtlsAck (client : ClientId) (t : Transport) (producerId rtpCapabilities : Nat)
  | ackConnect (client : ClientId) (t : Transport) (producerId rtpCapabilities : Nat)
  | ackConsume (client : ClientId) (t : Transport) (producerId : Nat)
deriving DecidableEq, Repr

/-- The socket whose handler a continuation belongs to. -/
def Cont.client : Cont → ClientId
  | .createProducerTransport A => A
  | .createConsumerTransport A => A
  | .connectTransport A _ => A
  | .produce A _ _ => A
  | .consumeCreate A _ _ => A
  | .consumeDirect A _ _ => A
  | .dtlsAck A _ _ _ => A
  | .ackConnect A _ _ _ => A
  | .ackConsume A _ _ => A

/-- The process state: the three module-level maps, the sockets currently
connected to the socket.io server, the transports on which the engine has
completed `connect`, the transports carrying the `_isConnected` mark, and the
suspended handlers. -/
structure State where
  transports : List (ClientId × TransportRecord)
  producers : List (ClientId × List Producer)
  consumers : List (ClientId × List Consumer)
  sockets : List ClientId
  dtlsConnected : List Nat
  isConnected : List Nat
  pending : List Cont
deriving DecidableEq, Repr

/-- What a handler segment leaves behind: the new state, its effects in order,
and the exception that escaped it, if any. -/
structure Outcome where
  state : State
  effects : List Effect
  uncaught : Option String
deriving DecidableEq, Repr

/-! ## JavaScript objects used as maps -/

/-- The assignment `m[k] = v`: overwrite in place, or insert at the end. -/
def jsSet {α : Type} (m : List (ClientId × α)) (k : ClientId) (v : α) :
    List (ClientId × α) :=
  match m.lookup k with
  | some _ => m.map (fun e => if e.1 = k then (k, v) else e)
  | none => m ++ [(k, v)]

/-- The statement `delete m[k]`. -/
def jsDelete {α : Type} (m : List (ClientId × α)) (k : ClientId) :
    List (ClientId × α) :=
  m.filter (fun e => decide (e.1 ≠ k))

/-! ## Messages -/

/-- Message of the `TypeError` raised when a property of `undefined` is read or
written (the text, which names the property, is abbreviated). -/
def typeErrorMessage : String := "Cannot read properties of undefined"

def noProducerTransportMessage : String := "ProducerTransport가 존재하지 않습니다"

def noConsumerTransportMessage : String := "ConsumerTransport가 존재하지 않습니다"

def cannotConsumeMessage : String := "미디어 소비가 불가능합니다"

/-! ## Building outcomes -/

/-- The handler ends by calling `callback(r)` and changes nothing. -/
def replyOnly (s : State) (A : ClientId) (r : Reply) : Outcome :=
  ⟨s, [Effect.reply A r], none⟩

/-- The handler invokes engine method `c` and suspends as `k`. -/
def suspend (s : State) (k : Cont) (c : EngineCall) : Outcome :=
  ⟨{ s with pending := s.pending ++ [k] }, [Effect.call c], none⟩

/-- The parameter pattern of an `async` function could not be bound: its promise
is rejected before the body, and so its `try`, is entered. -/
def rejected (s : State) : Outcome :=
  ⟨s, [], some typeErrorMessage⟩

/-! ## `produce` (lines 202-224) -/

/-- Lines 202-211: bind `{ kind, rtpParameters }`, look the producer-side
transport up and call `produce` on it. -/
def produce_start (s : State) (A : ClientId) (payload : ProducePayload) : Outcome :=
  match payload with
  | .undefined => rejected s
  | .object kind rtpParameters =>
    match s.transports.lookup A with
    | none => replyOnly s A (.error typeErrorMessage)
    | some rec =>
      match rec.producerTransport with
      | none => replyOnly s A (.error noProducerTransportMessage)
      | some t => suspend s (.produce A t kind) (.produce t.id kind rtpParameters)

/-- Lines 211-223, after the `await`: store the producer, answer, broadcast. -/
def produce_resume (s : State) (A : ClientId) (t : Transport) (kind : String)
    (r : Except String ProducerData) : Outcome :=
  match r with
  | .error m => replyOnly s A (.error m)
  | .ok p =>
    match s.producers.lookup A with
    | none => replyOnly s A (.error typeErrorMessage)
    | some ps =>
      ⟨{ s with producers := jsSet s.producers A (ps ++ [⟨p.id, p.kind, t.id⟩]) },
        Effect.reply A (.produced p.id) ::
          (s.sockets.filter (fun B => decide (B ≠ A))).map
            (fun B => Effect.emit B (.newProducer p.id A kind)),
        none⟩

/-! ## `produceDone` (lines 105-111) -/

/-- The inner `forEach` of `produceDone`: one `newProducer` per producer of
`clientId`. -/
def announceProducers (C clientId : ClientId) : List Producer → List Effect
  | [] => []
  | p :: ps =>
    Effect.emit C (.newProducer p.id clientId p.kind) :: announceProducers C clientId ps

/-- The outer `for (let clientId in producers)` of `produceDone`. -/
def announceAll (C : ClientId) : List (ClientId × List Producer) → List Effect
  | [] => []
  | e :: es => announceProducers C e.1 e.2 ++ announceAll C es

/-- The `produceDone` handler. -/
def produceDone (s : State) (C : ClientId) : Outcome :=
  ⟨s, announceAll C s.producers, none⟩

/-! ## `createProducerTransport` and `createConsumerTransport` (lines 114-165) -/

/-- Lines 118-122: ask the router for a transport. -/
def createProducerTransport_start (s : State) (A : ClientId) : Outcome :=
  suspend s (.createProducerTransport A) .createWebRtcTransport

/-- Lines 124-137, after the `await`: overwrite `producerTransport`, answer. -/
def createProducerTransport_resume (s : State) (A : ClientId)
    (r : Except String Transport) : Outcome :=
  match r with
  | .error m => replyOnly s A (.error m)
  | .ok t =>
    match s.transports.lookup A with
    | none => replyOnly s A (.error typeErrorMessage)
    | some rec =>
      ⟨{ s with transports := jsSet s.transports A { rec with producerTransport := some t } },
        [Effect.reply A (.transportParams t.id t.iceParameters t.iceCandidates t.dtlsParameters)],
        none⟩

/-- Lines 145-149: ask the router for a transport. -/
def createConsumerTransport_start (s : State) (A : ClientId) : Outcome :=
  suspend s (.createConsumerTransport A) .createWebRtcTransport

/-- Lines 151-164, after the `await`: push onto `consumerTransports`, answer. -/
def createConsumerTransport_resume (s : State) (A : ClientId)
    (r : Except String Transport) : Outcome :=
  match r with
  | .error m => replyOnly s A (.error m)
  | .ok t =>
    match s.transports.lookup A with
    | none => replyOnly s A (.error typeErrorMessage)
    | some rec =>
      ⟨{ s with transports :=
            jsSet s.transports A { rec with consumerTransports := rec.consumerTransports ++ [t] } },
        [Effect.reply A (.transportParams t.id t.iceParameters t.iceCandidates t.dtlsParameters)],
        none⟩

/-! ## `connectProducerTransport` and `connectConsumerTransport` (lines 168-199) -/

/-- Lines 168-176: bind `{ dtlsParameters }`, look the transport up, call
`connect`. -/
def connectProducerTransport_start (s : State) (A : ClientId) (payload : Payload) :
    Outcome :=
  match payload with
  | .undefined => rejected s
  | .object d =>
    match s.transports.lookup A with
    | none => replyOnly s A (.error typeErrorMessage)
    | some rec =>
      match rec.producerTransport with
      | none => replyOnly s A (.error noProducerTransportMessage)
      | some t => suspend s (.connectTransport A t) (.connect t.id d)

/-- Lines 185-193: bind `{ dtlsParameters }`, take `consumerTransports[0]`, call
`connect`. -/
def connectConsumerTransport_start (s : State) (A : ClientId) (payload : Payload) :
    Outcome :=
  match payload with
  | .undefined => rejected s
  | .object d =>
    match s.transports.lookup A with
    | none => replyOnly s A (.error typeErrorMessage)
    | some rec =>
      match rec.consumerTransports.head? with
      | none => replyOnly s A (.error noConsumerTransportMessage)
      | some t => suspend s (.connectTransport A t) (.connect t.id d)

/-- Lines 176-181 and 193-198, after the `await`: the engine has connected the
transport, or not; answer accordingly. -/
def connectTransport_resume (s : State) (A : ClientId) (t : Transport)
    (r : Except String Unit) : Outcome :=
  match r with
  | .error m => replyOnly s A (.error m)
  | .ok _ =>
    ⟨{ s with dtlsConnected := s.dtlsConnected ++ [t.id] }, [Effect.reply A .ack], none⟩

/-! ## `consume` (lines 228-305) -/

/-- Lines 232-247 and 285: the capability gate, the lookup of
`consumerTransports[0]`, and the engine call of the branch taken. -/
def consume_start (canConsume : Nat → Nat → Bool) (s : State) (A : ClientId)
    (producerId : Nat) (_kind : String) (rtpCapabilities : Nat) : Outcome :=
  if canConsume producerId rtpCapabilities then
    match s.transports.lookup A with
    | none => replyOnly s A (.error typeErrorMessage)
    | some rec =>
      match rec.consumerTransports.head? with
      | none => suspend s (.consumeCreate A producerId rtpCapabilities) .createWebRtcTransport
      | some t =>
        suspend s (.consumeDirect A t producerId) (.consume t.id producerId rtpCapabilities)
  else replyOnly s A (.error cannotConsumeMessage)

/-- Lines 243-281, after the `await`: push the new transport, ask the client for
its DTLS parameters, return without answering. -/
def consume_afterCreate (s : State) (A : ClientId) (producerId rtpCapabilities : Nat)
    (r : Except String Transport) : Outcome :=
  match r with
  | .error m => replyOnly s A (.error m)
  | .ok t =>
    match s.transports.lookup A with
    | none => replyOnly s A (.error typeErrorMessage)
    | some rec =>
      ⟨{ s with
          transports :=
            jsSet s.transports A { rec with consumerTransports := rec.consumerTransports ++ [t] },
          pending := s.pending ++ [.dtlsAck A t producerId rtpCapabilities] },
        [Effect.emit A .getDtlsParametersForConsumer], none⟩

/-- Store a freshly created consumer and answer with its descriptor (lines
264-274 and 290-300, with the `catch` that encloses each). -/
def storeConsumer (s : State) (A : ClientId) (t : Transport) (producerId : Nat)
    (r : Except String ConsumerData) : Outcome :=
  match r with
  | .error m => replyOnly s A (.error m)
  | .ok c =>
    match s.consumers.lookup A with
    | none => replyOnly s A (.error typeErrorMessage)
    | some cs =>
      ⟨{ s with consumers := jsSet s.consumers A (cs ++ [⟨c.id, c.kind, c.rtpParameters, t.id⟩]) },
        [Effect.reply A (.consumed c.id producerId c.kind c.rtpParameters)], none⟩

/-- Lines 285-304, after the `await` of the direct branch. -/
def consume_afterConsume (s : State) (A : ClientId) (t : Transport) (producerId : Nat)
    (r : Except String ConsumerData) : Outcome :=
  storeConsumer s A t producerId r

/-- Lines 252-254: the acknowledgement callback binds `{ dtlsParameters }` and
calls `connect` on the captured transport. -/
def ack_start (s : State) (A : ClientId) (t : Transport) (producerId rtpCapabilities : Nat)
    (payload : Payload) : Outcome :=
  match payload with
  | .undefined => rejected s
  | .object d => suspend s (.ackConnect A t producerId rtpCapabilities) (.connect t.id d)

/-- Lines 254-262 and 275-278: after `connect`, mark the transport and call
`consume` on it. -/
def ack_afterConnect (s : State) (A : ClientId) (t : Transport)
    (producerId rtpCapabilities : Nat) (r : Except String Unit) : Outcome :=
  match r with
  | .error m => replyOnly s A (.error m)
  | .ok _ =>
    suspend
      { s with dtlsConnected := s.dtlsConnected ++ [t.id],
               isConnected := s.isConnected ++ [t.id] }
      (.ackConsume A t producerId) (.consume t.id producerId rtpCapabilities)

/-- Lines 259-278, after `consume`: store the consumer and resolve the original
request. -/
def ack_afterConsume (s : State) (A : ClientId) (t : Transport) (producerId : Nat)
    (r : Except String ConsumerData) : Outcome :=
  storeConsumer s A t producerId r

/-! ## `disconnect` (lines 307-327) -/

/-- Invoke `close()` on each handle in turn; `fails c` is the exception that
call throws, if it throws.  Returns the calls made and the exception that stopped
the loop. -/
def closeAll (fails : EngineCall → Option String) : List EngineCall → List Effect × Option String
  | [] => ([], none)
  | c :: cs =>
    match fails c with
    | some err => ([Effect.call c], some err)
    | none => (Effect.call c :: (closeAll fails cs).1, (closeAll fails cs).2)

/-- The `close()` calls of lines 311-316. -/
def transportCloses (s : State) (A : ClientId) : List EngineCall :=
  match s.transports.lookup A with
  | none => []
  | some rec =>
    (rec.producerTransport.toList ++ rec.consumerTransports).map
      (fun t => EngineCall.closeTransport t.id)

/-- The `disconnect` handler.  It has no `try`: an exception thrown by a
`close()` or by `undefined.forEach` leaves it at once. -/
def disconnect (fails : EngineCall → Option String) (s : State) (A : ClientId) : Outcome :=
  match closeAll fails (transportCloses s A) with
  | (e1, some err) => ⟨s, e1, some err⟩
  | (e1, none) =>
    match s.producers.lookup A with
    | none => ⟨s, e1, some typeErrorMessage⟩
    | some ps =>
      match closeAll fails (ps.map (fun p => EngineCall.closeProducer p.id)) with
      | (e2, some err) => ⟨s, e1 ++ e2, some err⟩
      | (e2, none) =>
        match s.consumers.lookup A with
        | none => ⟨s, e1 ++ e2, some typeErrorMessage⟩
        | some cs =>
          match closeAll fails (cs.map (fun c => EngineCall.closeConsumer c.id)) with
          | (e3, some err) => ⟨s, e1 ++ e2 ++ e3, some err⟩
          | (e3, none) =>
            ⟨{ s with transports := jsDelete s.transports A,
                      producers := jsDelete s.producers A,
                      consumers := jsDelete s.consumers A },
              e1 ++ e2 ++ e3 ++ s.sockets.map (fun B => Effect.emit B (.removeClient A)),
              none⟩

/-! ## `connection` (lines 87-102) -/

/-- Lines 100-102: the three empty entries of a new socket. -/
def connection (s : State) (A : ClientId) : Outcome :=
  ⟨{ s with transports := jsSet s.transports A ⟨none, []⟩,
            producers := jsSet s.producers A [],
            consumers := jsSet s.consumers A [] },
    [], none⟩

/-! ## The event loop -/

/-- What settles a suspended handler: the result of the awaited engine call, or
the client's acknowledgement. -/
inductive Resolution where
  | transport (r : Except String Transport)
  | done (r : Except String Unit)
  | producer (r : Except String ProducerData)
  | consumer (r : Except String ConsumerData)
  | answer (payload : Payload)

/-- Run the segment that follows the suspension `k`; `none` when the resolution
is not of the kind `k` waits for. -/
def resume (s : State) : Cont → Resolution → Option Outcome
  | .createProducerTransport A, .transport r => some (createProducerTransport_resume s A r)
  | .createConsumerTransport A, .transport r => some (createConsumerTransport_resume s A r)
  | .connectTransport A t, .done r => some (connectTransport_resume s A t r)
  | .produce A t kind, .producer r => some (produce_resume s A t kind r)
  | .consumeCreate A producerId caps, .transport r =>
    some (consume_afterCreate s A producerId caps r)
  | .consumeDirect A t producerId, .consumer r => some (consume_afterConsume s A t producerId r)
  | .dtlsAck A t producerId caps, .answer payload => some (ack_start s A t producerId caps payload)
  | .ackConnect A t producerId caps, .done r => some (ack_afterConnect s A t producerId caps r)
  | .ackConsume A t producerId, .consumer r => some (ack_afterConsume s A t producerId r)
  | _, _ => none

/-- What the event loop can deliver: a new socket, a message of a connected
socket (with the router's verdict for `consume`, and with the behaviour of
`close()` for `disconnect`), or the settling of a suspended handler. -/
inductive Event where
  | connection (A : ClientId)
  | produceDone (A : ClientId)
  | createProducerTransport (A : ClientId)
  | createConsumerTransport (A : ClientId)
  | connectProducerTransport (A : ClientId) (payload : Payload)
  | connectConsumerTransport (A : ClientId) (payload : Payload)
  | produce (A : ClientId) (payload : ProducePayload)
  | consume (A : ClientId) (producerId : Nat) (kind : String) (rtpCapabilities : Nat)
      (can : Bool)
  | disconnect (A : ClientId) (fails : EngineCall → Option String)
  | settle (k : Cont) (r : Resolution)

/-- Nothing happens. -/
def idle (s : State) : Outcome := ⟨s, [], none⟩

/-- A socket id is unused: socket.io gives every connection an id of its own. -/
def fresh (s : State) (A : ClientId) : Bool :=
  !(s.sockets.contains A) && (s.transports.lookup A).isNone && (s.producers.lookup A).isNone
    && (s.consumers.lookup A).isNone && s.pending.all (fun k => decide (k.client ≠ A))

/-- One turn of the event loop.  Messages are delivered for connected sockets
only; a socket has left the server's socket set when its `disconnect` handler
runs. -/
def step (s : State) : Event → Outcome
  | .connection A =>
    if fresh s A then connection { s with sockets := s.sockets ++ [A] } A else idle s
  | .produceDone A => if A ∈ s.sockets then produceDone s A else idle s
  | .createProducerTransport A =>
    if A ∈ s.sockets then createProducerTransport_start s A else idle s
  | .createConsumerTransport A =>
    if A ∈ s.sockets then createConsumerTransport_start s A else idle s
  | .connectProducerTransport A payload =>
    if A ∈ s.sockets then connectProducerTransport_start s A payload else idle s
  | .connectConsumerTransport A payload =>
    if A ∈ s.sockets then connectConsumerTransport_start s A payload else idle s
  | .produce A payload =>
    if A ∈ s.sockets then produce_start s A payload else idle s
  | .consume A producerId kind rtpCapabilities can =>
    if A ∈ s.sockets then consume_start (fun _ _ => can) s A producerId kind rtpCapabilities
    else idle s
  | .disconnect A fails =>
    if A ∈ s.sockets then
      disconnect fails { s with sockets := s.sockets.filter (fun B => decide (B ≠ A)) } A
    else idle s
  | .settle k r =>
    if k ∈ s.pending then
      (resume { s with pending := s.pending.erase k } k r).getD (idle s)
    else idle s

/-- The state after a sequence of events. -/
def run (s : State) : List Event → State
  | [] => s
  | e :: es => run (step s e).state es

/-- The state of a freshly started server. -/
def init : State := ⟨[], [], [], [], [], [], []⟩

/-! ## Reading effect lists -/

/-- The `callback(...)` invocations among the effects. -/
def replies : List Effect → List (ClientId × Reply)
  | [] => []
  | .reply A r :: es => (A, r) :: replies es
  | _ :: es => replies es

/-- The messages emitted to sockets among the effects. -/
def emits : List Effect → List (ClientId × Notification)
  | [] => []
  | .emit B n :: es => (B, n) :: emits es
  | _ :: es => emits es

/-- The engine methods invoked among the effects. -/
def calls : List Effect → List EngineCall
  | [] => []
  | .call c :: es => c :: calls es
  | _ :: es => calls es

/-- The notifications emitted to socket `B`. -/
def emitsTo (B : ClientId) (es : List Effect) : List Notification :=
  ((emits es).filter (fun x => decide (x.1 = B))).map (fun x => x.2)

/-- Whether an engine call is a `close()`. -/
def EngineCall.isClose : EngineCall → Bool
  | .closeTransport _ => true
  | .closeProducer _ => true
  | .closeConsumer _ => true
  | _ => false

/-- Whether an engine call creates a transport. -/
def EngineCall.isCreateTransport : EngineCall → Bool
  | .createWebRtcTransport => true
  | _ => false

/-- Whether an engine call creates a consumer. -/
def EngineCall.isConsume : EngineCall → Bool
  | .consume _ _ _ => true
  | _ => false

/-! ## Runs used in the statements -/

/-- The `produce` request `{kind, rtpParameters}` of `A` followed at once by the settling of the
engine's `produce` on the transport `t`. -/
def produceSettled (s : State) (A : ClientId) (kind : String) (rtpParameters : Nat)
    (t : Transport) (r : Except String ProducerData) : Outcome :=
  step (step s (.produce A (.object kind rtpParameters))).state
    (.settle (.produce A t kind) (.producer r))

/-! ## Concrete states used by the closed statements -/

/-- Two connected sockets; `"a"` holds producer-side transport 1 (never
connected), consumer-side transport 2, one video producer and one consumer. -/
def demoState : State :=
  { transports := [("a", ⟨some ⟨1, 10, 11, 12⟩, [⟨2, 20, 21, 22⟩]⟩), ("b", ⟨none, []⟩)],
    producers := [("a", [⟨5, "video", 1⟩]), ("b", [])],
    consumers := [("a", [⟨6, "audio", 60, 2⟩]), ("b", [])],
    sockets := ["a", "b"],
    dtlsConnected := [],
    isConnected := [],
    pending := [] }

/-! ## The producers held in the map -/

/-- Every producer held in the map, paired with the key it is stored under. -/
def ownedProducers (m : List (ClientId × List Producer)) : List (ClientId × Producer) :=
  (m.map (fun e => e.2.map (fun p => (e.1, p)))).flatten

/-! ## The `close()` calls of a session -/

/-- Every `close()` the `disconnect` handler of `A` is written to make, in
program order: the transports, then the producers, then the consumers. -/
def sessionCloses (s : State) (A : ClientId) : List EngineCall :=
  transportCloses s A
    ++ ((s.producers.lookup A).getD []).map (fun p => EngineCall.closeProducer p.id)
    ++ ((s.consumers.lookup A).getD []).map (fun c => EngineCall.closeConsumer c.id)

/-- The state once the three entries of `A` are deleted. -/
def unregister (s : State) (A : ClientId) : State :=
  { s with transports := jsDelete s.transports A,
           producers := jsDelete s.producers A,
           consumers := jsDelete s.consumers A }

/-- The `disconnect` of the connected socket `X`, every `close()` behaving as
`fails` says. -/
def departure (s : State) (X : ClientId) (fails : EngineCall → Option String) : Outcome :=
  step s (.disconnect X fails)

/-- The behaviour of `close()` in C5's refutation: closing producer 5 throws. -/
def producerFiveFails : EngineCall → Option String :=
  fun c => if c = .closeProducer 5 then some "close failed" else none

/-! ## Sequences of events -/

/-- The outcomes of a sequence of events, one per event. -/
def trace : State → List Event → List Outcome
  | _, [] => []
  | s, e :: es => step s e :: trace (step s e).state es

/-- Two sockets connect and `"a"` obtains producer-side transport 1; nobody ever
asks for it to be connected. -/
def unconnectedTransport : List Event :=
  [.connection "a", .connection "b", .createProducerTransport "a",
   .settle (.createProducerTransport "a") (.transport (.ok ⟨1, 10, 11, 12⟩))]

/-- The socket `"a"` obtains producer-side transport 1 and then producer-side
transport 2. -/
def twiceCreated : List Event :=
  [.connection "a",
   .createProducerTransport "a",
   .settle (.createProducerTransport "a") (.transport (.ok ⟨1, 10, 11, 12⟩)),
   .createProducerTransport "a",
   .settle (.createProducerTransport "a") (.transport (.ok ⟨2, 20, 21, 22⟩))]

/-- After `unconnectedTransport`, `"a"` sends `produce`. -/
def answeredProduce : List Event :=
  unconnectedTransport ++ [.produce "a" (.object "video" 3)]

/-- In the run of `es` from `s0`, a `produce` request `{kind, _}` of `A` arrived
while `A` was connected and its record held the producer-side transport `t`. -/
def RequestedOnTransport (s0 : State) (es : List Event) (A : ClientId) (t : Transport)
    (kind : String) : Prop :=
  ∃ pre post rtp rec, es = pre ++ Event.produce A (.object kind rtp) :: post
    ∧ A ∈ (run s0 pre).sockets
    ∧ (run s0 pre).transports.lookup A = some rec ∧ rec.producerTransport = some t

/-! ## The self-healing branch of `consume` -/

/-- A `consume` request of `A` that passes the router's check, and then, in
order: the router delivers transport `t`, the client acknowledges
`getDtlsParametersForConsumer` with `payload`, the engine settles `connect`
with `rc` and `consume` with `rk`. -/
def selfHeal (A : ClientId) (producerId : Nat) (kind : String) (caps : Nat) (t : Transport)
    (payload : Payload) (rc : Except String Unit) (rk : Except String ConsumerData) :
    List Event :=
  [.consume A producerId kind caps true,
   .settle (.consumeCreate A producerId caps) (.transport (.ok t)),
   .settle (.dtlsAck A t producerId caps) (.answer payload),
   .settle (.ackConnect A t producerId caps) (.done rc),
   .settle (.ackConsume A t producerId) (.consumer rk)]

/-! ## Two `consume` requests in flight -/

/-- Two `consume` requests of `"b"`, the second arriving while the first awaits
`createWebRtcTransport`; the router then delivers transports 3 and 4. -/
def racingConsumes : List Event :=
  [.consume "b" 5 "video" 9 true,
   .consume "b" 8 "audio" 9 true,
   .settle (.consumeCreate "b" 5 9) (.transport (.ok ⟨3, 30, 31, 32⟩)),
   .settle (.consumeCreate "b" 8 9) (.transport (.ok ⟨4, 40, 41, 42⟩))]

/-! ## Transitions of the registry

Every turn of the event loop changes the three maps in one of a few ways.
`Move` lists them, together with what is known about the suspended handlers
afterwards. -/

/-- The consumer-side transport a suspended handler has captured. -/
def Cont.consumerTransport : Cont → Option Transport
  | .consumeDirect _ t _ => some t
  | .dtlsAck _ t _ _ => some t
  | .ackConnect _ t _ _ => some t
  | .ackConsume _ t _ => some t
  | _ => none

/-- The producer-side transport a suspended `produce` has captured. -/
def Cont.producerTransport : Cont → Option Transport
  | .produce _ t _ => some t
  | _ => none

/-- The suspended handler is waiting for a transport that it will push onto
`consumerTransports`. -/
def Cont.createsConsumerTransport : Cont → Bool
  | .createConsumerTransport _ => true
  | .consumeCreate _ _ _ => true
  | _ => false

/-- The event stores a producer-side transport for the socket `A`, which
already holds one. -/
def replacesFor (A : ClientId) (s : State) : Event → Bool
  | .settle (.createProducerTransport B) (.transport (.ok _)) =>
    decide (B = A) && decide (Cont.createProducerTransport B ∈ s.pending)
      && ((s.transports.lookup B).bind (fun rec => rec.producerTransport)).isSome
  | _ => false

/-- The transports captured by `k` are held by the record of its socket. -/
def Backed (s : State) (k : Cont) : Prop :=
  (∀ t, k.producerTransport = some t →
      ∃ rec, s.transports.lookup k.client = some rec ∧ rec.producerTransport = some t)
  ∧ (∀ t, k.consumerTransport = some t →
      ∃ rec, s.transports.lookup k.client = some rec ∧ t ∈ rec.consumerTransports)

/-- The handler `k` continues `k0`: same socket, same captured consumer-side
transport. -/
def Heir (k0 k : Cont) : Prop :=
  k.client = k0.client ∧ k.producerTransport = none ∧ k.consumerTransport = k0.consumerTransport

/-- The three maps are the same in both states. -/
def SameRegistry (s s2 : State) : Prop :=
  s2.transports = s.transports ∧ s2.producers = s.producers ∧ s2.consumers = s.consumers

/-- The ways the event `e` takes the state `s` to `s2`. -/
inductive Move (e : Event) (s s2 : State) : Prop where
  | quiet (h : SameRegistry s s2) (hp : ∀ k ∈ s2.pending, k ∈ s.pending)
  | spawn (k : Cont) (h : SameRegistry s s2)
      (hk : Backed s k ∨ ∃ k0 ∈ s.pending, Heir k0 k)
      (hn : k.createsConsumerTransport = true →
        e = .createConsumerTransport k.client
        ∨ ∃ rec, s.transports.lookup k.client = some rec ∧ rec.consumerTransports = [])
      (hq : ∀ t, k.producerTransport = some t →
        ∃ kind rtp, e = .produce k.client (.object kind rtp) ∧ k = .produce k.client t kind
          ∧ k.client ∈ s.sockets)
      (hp : ∀ j ∈ s2.pending, j ∈ s.pending ∨ j = k)
  | setProducerTransport (A : ClientId) (rec : TransportRecord) (t : Transport)
      (hl : s.transports.lookup A = some rec)
      (hs : replacesFor A s e = false → rec.producerTransport = none)
      (hT : s2.transports = jsSet s.transports A { rec with producerTransport := some t })
      (hP : s2.producers = s.producers) (hC : s2.consumers = s.consumers)
      (hp : ∀ k ∈ s2.pending, k ∈ s.pending)
  | pushConsumerTransport (A : ClientId) (rec : TransportRecord) (t : Transport)
      (hl : s.transports.lookup A = some rec)
      (hc : ∃ k ∈ s.pending, k.client = A ∧ k.createsConsumerTransport = true)
      (hT : s2.transports
        = jsSet s.transports A { rec with consumerTransports := rec.consumerTransports ++ [t] })
      (hP : s2.producers = s.producers) (hC : s2.consumers = s.consumers)
      (hp : ∀ k ∈ s2.pending, k ∈ s.pending
        ∨ (k.client = A ∧ k.producerTransport = none ∧ k.consumerTransport = some t))
  | pushProducer (A : ClientId) (ps : List Producer) (t : Transport) (p : Producer)
      (hl : s.producers.lookup A = some ps)
      (hk : ∃ k ∈ s.pending, k.client = A ∧ k.producerTransport = some t)
      (hpt : p.transport = t.id)
      (hT : s2.transports = s.transports)
      (hP : s2.producers = jsSet s.producers A (ps ++ [p]))
      (hC : s2.consumers = s.consumers)
      (hp : ∀ k ∈ s2.pending, k ∈ s.pending)
  | pushConsumer (A : ClientId) (cs : List Consumer) (t : Transport) (c : Consumer)
      (hl : s.consumers.lookup A = some cs)
      (hk : ∃ k ∈ s.pending, k.client = A ∧ k.consumerTransport = some t)
      (hct : c.transport = t.id)
      (hT : s2.transports = s.transports)
      (hP : s2.producers = s.producers)
      (hC : s2.consumers = jsSet s.consumers A (cs ++ [c]))
      (hp : ∀ k ∈ s2.pending, k ∈ s.pending)
  | register (A : ClientId) (hf : fresh s A = true)
      (hT : s2.transports = jsSet s.transports A ⟨none, []⟩)
      (hP : s2.producers = jsSet s.producers A [])
      (hC : s2.consumers = jsSet s.consumers A [])
      (hp : ∀ k ∈ s2.pending, k ∈ s.pending)
  | unregister (A : ClientId)
      (he : ∃ fails, e = .disconnect A fails)
      (hT : s2.transports = jsDelete s.transports A)
      (hP : s2.producers = jsDelete s.producers A)
      (hC : s2.consumers = jsDelete s.consumers A)
      (hp : ∀ k ∈ s2.pending, k ∈ s.pending)

/-- No event of the sequence, run from `s`, replaces a producer-side transport
of the socket `A`. -/
def neverReplacesFor (A : ClientId) : State → List Event → Bool
  | _, [] => true
  | s, e :: es => !replacesFor A s e && neverReplacesFor A (step s e).state es

/-! ## Invariants of the registry -/

/-- Every consumer in a consumer list was made on a transport that the record of
the same socket holds among its consumer-side transports. -/
def ConsumersOnHeldTransports (s : State) : Prop :=
  ∀ A cs, s.consumers.lookup A = some cs → ∀ c ∈ cs,
    ∃ rec, s.transports.lookup A = some rec ∧ ∃ t ∈ rec.consumerTransports, c.transport = t.id

/-- Every producer in the producer list of `A` was made on the transport that
is the producer-side transport of `A`. -/
def ProducersOnCurrentTransport (s : State) (A : ClientId) : Prop :=
  ∀ ps, s.producers.lookup A = some ps → ∀ p ∈ ps,
    ∃ rec t, s.transports.lookup A = some rec ∧ rec.producerTransport = some t
      ∧ p.transport = t.id

/-- A suspended handler of a socket that still has a consumer list has captured
a transport that the socket's record holds. -/
def PendingConsumersBacked (s : State) : Prop :=
  ∀ k ∈ s.pending, ∀ t, k.consumerTransport = some t →
    ∀ cs, s.consumers.lookup k.client = some cs →
      ∃ rec, s.transports.lookup k.client = some rec ∧ t ∈ rec.consumerTransports

/-- A suspended `produce` of `A`, while `A` still has a producer list, has
captured the producer-side transport of `A`. -/
def PendingProducersBacked (s : State) (A : ClientId) : Prop :=
  ∀ k ∈ s.pending, k.client = A → ∀ t, k.producerTransport = some t →
    ∀ ps, s.producers.lookup A = some ps →
      ∃ rec, s.transports.lookup A = some rec ∧ rec.producerTransport = some t

/-- A second `createProducerTransport` of `"a"` after it has produced on
transport 1. -/
def replacedTransport : List Event :=
  [.connection "a",
   .createProducerTransport "a",
   .settle (.createProducerTransport "a") (.transport (.ok ⟨1, 10, 11, 12⟩)),
   .produce "a" (.object "video" 3),
   .settle (.produce "a" ⟨1, 10, 11, 12⟩ "video") (.producer (.ok ⟨7, "video"⟩)),
   .createProducerTransport "a",
   .settle (.createProducerTransport "a") (.transport (.ok ⟨2, 20, 21, 22⟩))]

/-! ## One consumer-side transport once the first is stored -/

/-- The record of `A` holds exactly the consumer-side transport `t`, and no
suspended handler of `A` is waiting for a transport to push. -/
def SoleConsumerTransport (A : ClientId) (t : Transport) (s : State) : Prop :=
  (∃ rec, s.transports.lookup A = some rec ∧ rec.consumerTransports = [t])
  ∧ ∀ k ∈ s.pending, k.client = A → k.createsConsumerTransport = false

/-- The event is neither the `disconnect` of `A` nor a `createConsumerTransport`
request of `A`. -/
def keepsSession (A : ClientId) : Event → Bool
  | .createConsumerTransport B => decide (B ≠ A)
  | .disconnect B _ => decide (B ≠ A)
  | _ => true

/-- The first `consume` of `A` and the delivery of its transport `t`. -/
def firstConsume (A : ClientId) (producerId : Nat) (kind : String) (caps : Nat)
    (t : Transport) : List Event :=
  [.consume A producerId kind caps true,
   .settle (.consumeCreate A producerId caps) (.transport (.ok t))]

/-- Two `consume` requests of `A`, the second arriving while the first awaits
`createWebRtcTransport`, followed by the delivery of both transports. -/
def overlappingConsumes (A : ClientId) (p1 : Nat) (k1 : String) (c1 : Nat) (t1 : Transport)
    (p2 : Nat) (k2 : String) (c2 : Nat) (t2 : Transport) : List Event :=
  [.consume A p1 k1 c1 true,
   .consume A p2 k2 c2 true,
   .settle (.consumeCreate A p1 c1) (.transport (.ok t1)),
   .settle (.consumeCreate A p2 c2) (.transport (.ok t2))]

/-- Two sockets; `"a"` obtains one producer-side transport and produces on it,
`"b"` obtains a producer-side transport twice and consumes through the
self-healing branch. -/
def mixedSession : List Event :=
  unconnectedTransport
    ++ [.produce "a" (.object "video" 3),
        .settle (.produce "a" ⟨1, 10, 11, 12⟩ "video") (.producer (.ok ⟨7, "video"⟩)),
        .createProducerTransport "b",
        .settle (.createProducerTransport "b") (.transport (.ok ⟨5, 50, 51, 52⟩)),
        .createProducerTransport "b",
        .settle (.createProducerTransport "b") (.transport (.ok ⟨6, 60, 61, 62⟩))]
    ++ selfHeal "b" 7 "video" 9 ⟨3, 30, 31, 32⟩ (.object (some 8)) (.ok ())
        (.ok ⟨4, "video", 40⟩)

/-! # Theorems -/

/-! ## Lemmas on the maps -/

theorem lookup_jsSet_self {α : Type} (m : List (ClientId × α)) (k : ClientId) (v : α) :
    (jsSet m k v).lookup k = some v := by
  unfold jsSet
  split
  · rename_i w h
    induction m with
    | nil => simp at h
    | cons e es ih =>
      obtain ⟨a, b⟩ := e
      by_cases hk : a = k
      · subst hk; simp [List.lookup_cons]
      · have hk2 : (k == a) = false := by simpa using fun h => hk h.symm
        simp only [List.lookup_cons, hk2] at h
        simp [List.lookup_cons, hk, hk2, ih h]
  · rename_i h
    induction m with
    | nil => simp [List.lookup_cons]
    | cons e es ih =>
      obtain ⟨a, b⟩ := e
      by_cases hk : a = k
      · subst hk; simp [List.lookup_cons] at h
      · have hk2 : (k == a) = false := by simpa using fun h => hk h.symm
        simp only [List.lookup_cons, hk2] at h
        simpa [List.lookup_cons, hk2] using ih h

theorem lookup_map_ne {α : Type} (m : List (ClientId × α)) (k k2 : ClientId) (v : α)
    (h : k2 ≠ k) :
    (m.map (fun e => if e.1 = k then (k, v) else e)).lookup k2 = m.lookup k2 := by
  induction m with
  | nil => rfl
  | cons e es ih =>
    obtain ⟨a, b⟩ := e
    by_cases hk : a = k
    · subst hk
      have hk2 : (k2 == a) = false := by simpa using h
      simp [List.lookup_cons, hk2, ih]
    · simp only [List.map_cons, hk, if_false, List.lookup_cons, ih]

theorem lookup_append_ne {α : Type} (m : List (ClientId × α)) (k k2 : ClientId) (v : α)
    (h : k2 ≠ k) : (m ++ [(k, v)]).lookup k2 = m.lookup k2 := by
  induction m with
  | nil =>
    have hk2 : (k2 == k) = false := by simpa using h
    simp [List.lookup_cons, hk2]
  | cons e es ih =>
    obtain ⟨a, b⟩ := e
    simp only [List.cons_append, List.lookup_cons, ih]

theorem lookup_jsSet_ne {α : Type} (m : List (ClientId × α)) (k k2 : ClientId) (v : α)
    (h : k2 ≠ k) : (jsSet m k v).lookup k2 = m.lookup k2 := by
  unfold jsSet
  split
  · exact lookup_map_ne m k k2 v h
  · exact lookup_append_ne m k k2 v h

theorem lookup_jsDelete_self {α : Type} (m : List (ClientId × α)) (k : ClientId) :
    (jsDelete m k).lookup k = none := by
  unfold jsDelete
  induction m with
  | nil => rfl
  | cons e es ih =>
    obtain ⟨a, b⟩ := e
    by_cases hk : a = k
    · subst hk; simpa using ih
    · have hk2 : (k == a) = false := by simpa using fun h => hk h.symm
      simp [List.filter_cons, hk, List.lookup_cons, hk2]
      simpa using ih

theorem lookup_jsDelete_ne {α : Type} (m : List (ClientId × α)) (k k2 : ClientId)
    (h : k2 ≠ k) : (jsDelete m k).lookup k2 = m.lookup k2 := by
  unfold jsDelete
  induction m with
  | nil => rfl
  | cons e es ih =>
    obtain ⟨a, b⟩ := e
    by_cases hk : a = k
    · subst hk
      have hk2 : (k2 == a) = false := by simpa using h
      simpa [List.filter_cons, List.lookup_cons, hk2] using ih
    · simp only [List.filter_cons, hk, ne_eq, not_false_eq_true, decide_True, if_true,
        List.lookup_cons, ih]

/-! ## Lemmas on effect lists -/

theorem replies_append (xs ys : List Effect) : replies (xs ++ ys) = replies xs ++ replies ys := by
  induction xs with
  | nil => rfl
  | cons e es ih => cases e <;> simp [replies, ih]

theorem emits_append (xs ys : List Effect) : emits (xs ++ ys) = emits xs ++ emits ys := by
  induction xs with
  | nil => rfl
  | cons e es ih => cases e <;> simp [emits, ih]

theorem calls_append (xs ys : List Effect) : calls (xs ++ ys) = calls xs ++ calls ys := by
  induction xs with
  | nil => rfl
  | cons e es ih => cases e <;> simp [calls, ih]

theorem emits_map_emit (l : List ClientId) (n : ClientId → Notification) :
    emits (l.map (fun B => Effect.emit B (n B))) = l.map (fun B => (B, n B)) := by
  induction l with
  | nil => rfl
  | cons b bs ih => simp [emits, ih]

theorem replies_map_emit (l : List ClientId) (n : ClientId → Notification) :
    replies (l.map (fun B => Effect.emit B (n B))) = [] := by
  induction l with
  | nil => rfl
  | cons b bs ih => simp [replies, ih]

theorem calls_map_emit (l : List ClientId) (n : ClientId → Notification) :
    calls (l.map (fun B => Effect.emit B (n B))) = [] := by
  induction l with
  | nil => rfl
  | cons b bs ih => simp [calls, ih]

theorem emitsTo_map_emit_of_not_mem (l : List ClientId) (n : Notification) (B : ClientId)
    (h : B ∉ l) : emitsTo B (l.map (fun C => Effect.emit C n)) = [] := by
  induction l with
  | nil => rfl
  | cons b bs ih =>
    have hb : b ≠ B := fun e => h (by simp [e])
    have hbs : B ∉ bs := fun e => h (by simp [e])
    have := ih hbs
    simp only [emitsTo] at this ⊢
    simp [emits, hb, this]

theorem emitsTo_map_emit_of_mem (l : List ClientId) (n : Notification) (B : ClientId)
    (hN : l.Nodup) (h : B ∈ l) : emitsTo B (l.map (fun C => Effect.emit C n)) = [n] := by
  induction l with
  | nil => simp at h
  | cons b bs ih =>
    rw [List.nodup_cons] at hN
    by_cases hb : b = B
    · subst hb
      have := emitsTo_map_emit_of_not_mem bs n b hN.1
      simp only [emitsTo] at this ⊢
      simp [emits, this]
    · have hbs : B ∈ bs := by
        rcases List.mem_cons.mp h with h | h
        · exact absurd h.symm hb
        · exact h
      have := ih hN.2 hbs
      simp only [emitsTo] at this ⊢
      simp [emits, hb, this]

/-! ## C1: `produce` -/

/-- C1: when the connected client `A` holds the producer-side transport `t` and
the engine's `produce` on `t` resolves with `P`, the handler appends `P` to the
producer list of `A` (and to no other), answers `{id: P.id}` to `A` once, emits
exactly one `newProducer {P.id, A, kind}` to every other connected socket, and
emits nothing to `A` or to a socket that is not connected. -/
theorem produce_success_notifies_others (s : State) (A : ClientId) (rec : TransportRecord)
    (t : Transport) (ps : List Producer) (kind : String) (rtp : Nat) (P : ProducerData)
    (hA : A ∈ s.sockets) (hN : s.sockets.Nodup)
    (hT : s.transports.lookup A = some rec) (hPT : rec.producerTransport = some t)
    (hP : s.producers.lookup A = some ps) :
    (step s (.produce A (.object kind rtp))).effects = [Effect.call (.produce t.id kind rtp)]
    ∧ (produceSettled s A kind rtp t (.ok P)).state.producers.lookup A
        = some (ps ++ [⟨P.id, P.kind, t.id⟩])
    ∧ (∀ B, B ≠ A → (produceSettled s A kind rtp t (.ok P)).state.producers.lookup B
        = s.producers.lookup B)
    ∧ replies (produceSettled s A kind rtp t (.ok P)).effects = [(A, .produced P.id)]
    ∧ (∀ B, B ∈ s.sockets → B ≠ A →
        emitsTo B (produceSettled s A kind rtp t (.ok P)).effects = [.newProducer P.id A kind])
    ∧ emitsTo A (produceSettled s A kind rtp t (.ok P)).effects = []
    ∧ (∀ B, B ∉ s.sockets → emitsTo B (produceSettled s A kind rtp t (.ok P)).effects = [])
    ∧ (produceSettled s A kind rtp t (.ok P)).uncaught = none := by
  have h1 : step s (.produce A (.object kind rtp))
      = suspend s (.produce A t kind) (.produce t.id kind rtp) := by
    simp [step, hA, produce_start, hT, hPT]
  have h2 : produceSettled s A kind rtp t (.ok P) =
      ⟨{ s with producers := jsSet s.producers A (ps ++ [⟨P.id, P.kind, t.id⟩]),
                pending := (s.pending ++ [Cont.produce A t kind]).erase (Cont.produce A t kind) },
        Effect.reply A (.produced P.id) ::
          (s.sockets.filter (fun B => decide (B ≠ A))).map
            (fun B => Effect.emit B (.newProducer P.id A kind)),
        none⟩ := by
    unfold produceSettled
    rw [h1]
    simp [suspend, step, resume, produce_resume, hP]
  have hN2 : (s.sockets.filter (fun B => decide (B ≠ A))).Nodup := hN.filter _
  refine ⟨by rw [h1]; rfl, ?_, ?_, ?_, ?_, ?_, ?_, ?_⟩
  · rw [h2]; exact lookup_jsSet_self _ _ _
  · intro B hB; rw [h2]; exact lookup_jsSet_ne _ _ _ _ hB
  · rw [h2]; simp [replies, replies_map_emit]
  · intro B hB hBA
    rw [h2]
    have := emitsTo_map_emit_of_mem (s.sockets.filter (fun B => decide (B ≠ A)))
      (.newProducer P.id A kind) B hN2 (by simp [hB, hBA])
    simpa [emitsTo, emits] using this
  · rw [h2]
    have := emitsTo_map_emit_of_not_mem (s.sockets.filter (fun B => decide (B ≠ A)))
      (.newProducer P.id A kind) A (by simp)
    simpa [emitsTo, emits] using this
  · intro B hB
    rw [h2]
    have := emitsTo_map_emit_of_not_mem (s.sockets.filter (fun B => decide (B ≠ A)))
      (.newProducer P.id A kind) B (by simp [hB])
    simpa [emitsTo, emits] using this
  · rw [h2]

/-- One of C1's instances: in `demoState`, `"a"` produces audio on transport 1 and
the engine answers with producer 7. -/
theorem produce_success_notifies_others_witness :
    "a" ∈ demoState.sockets ∧ demoState.sockets.Nodup
    ∧ replies (produceSettled demoState "a" "audio" 3 ⟨1, 10, 11, 12⟩ (.ok ⟨7, "audio"⟩)).effects
        = [("a", .produced 7)]
    ∧ emitsTo "b" (produceSettled demoState "a" "audio" 3 ⟨1, 10, 11, 12⟩ (.ok ⟨7, "audio"⟩)).effects
        = [.newProducer 7 "a" "audio"] :=
  have h := produce_success_notifies_others demoState "a"
    ⟨some ⟨1, 10, 11, 12⟩, [⟨2, 20, 21, 22⟩]⟩ ⟨1, 10, 11, 12⟩ [⟨5, "video", 1⟩] "audio" 3
    ⟨7, "audio"⟩ (by decide) (by decide) (by decide) rfl (by decide)
  ⟨by decide, by decide, h.2.2.2.1, h.2.2.2.2.1 "b" (by decide) (by decide)⟩

/-! ## C2: `produceDone` -/

theorem announceProducers_eq (C clientId : ClientId) (ps : List Producer) :
    announceProducers C clientId ps
      = ps.map (fun p => Effect.emit C (.newProducer p.id clientId p.kind)) := by
  induction ps with
  | nil => rfl
  | cons p ps ih => simp [announceProducers, ih]

theorem announceAll_eq (C : ClientId) (m : List (ClientId × List Producer)) :
    announceAll C m
      = (ownedProducers m).map (fun x => Effect.emit C (.newProducer x.2.id x.1 x.2.kind)) := by
  induction m with
  | nil => rfl
  | cons e es ih =>
    simp [announceAll, ownedProducers, announceProducers_eq, ih, Function.comp_def] at *

theorem length_ownedProducers (m : List (ClientId × List Producer)) :
    (ownedProducers m).length = (m.map (fun e => e.2.length)).sum := by
  induction m with
  | nil => rfl
  | cons e es ih => simp [ownedProducers] at *; omega

/-- C2: `produceDone` from `C` emits to `C`, and to nobody else, the list of
`newProducer {producer id, owning client, kind}` obtained from the producers
held in all producer lists (taken once each, `C`'s own included), so their number
is the sum of the lengths of the lists; it answers nothing, calls nothing and
leaves the state, hence the three maps, as it was. -/
theorem produceDone_announces_every_producer (s : State) (C : ClientId) :
    (produceDone s C).state = s
    ∧ emitsTo C (produceDone s C).effects
        = (ownedProducers s.producers).map (fun x => .newProducer x.2.id x.1 x.2.kind)
    ∧ (produceDone s C).effects.length = (s.producers.map (fun e => e.2.length)).sum
    ∧ (emits (produceDone s C).effects).length = (produceDone s C).effects.length
    ∧ (∀ B, B ≠ C → emitsTo B (produceDone s C).effects = [])
    ∧ (produceDone s C).uncaught = none := by
  have hE : emits (produceDone s C).effects
      = (ownedProducers s.producers).map (fun x => (C, .newProducer x.2.id x.1 x.2.kind)) := by
    simp only [produceDone, announceAll_eq]
    generalize ownedProducers s.producers = l
    induction l with
    | nil => rfl
    | cons x xs ih => simp [emits, ih]
  refine ⟨rfl, ?_, ?_, ?_, ?_, rfl⟩
  · simp [emitsTo, hE, List.filter_map, Function.comp_def]
  · simp [produceDone, announceAll_eq, length_ownedProducers]
  · rw [hE]; simp [produceDone, announceAll_eq]
  · intro B hB
    simp [emitsTo, hE, List.filter_map, Function.comp_def, Ne.symm hB]

/-! ## C3: `consume`, refused by the router -/

/-- C3: when `router.canConsume` refuses the pair `(producerId, rtpCapabilities)`,
`consume` answers `{error}` with the refusal message, once; it calls no engine
method (so neither a consumer nor a transport is created), suspends nothing and
leaves the state, hence the consumer list and transport record of the requester,
as it was. -/
theorem consume_refused_changes_nothing (canConsume : Nat → Nat → Bool) (s : State)
    (A : ClientId) (producerId : Nat) (kind : String) (rtpCapabilities : Nat)
    (h : canConsume producerId rtpCapabilities = false) :
    (consume_start canConsume s A producerId kind rtpCapabilities).effects
        = [Effect.reply A (.error cannotConsumeMessage)]
    ∧ calls (consume_start canConsume s A producerId kind rtpCapabilities).effects = []
    ∧ (consume_start canConsume s A producerId kind rtpCapabilities).state = s
    ∧ (consume_start canConsume s A producerId kind rtpCapabilities).uncaught = none := by
  simp [consume_start, h, replyOnly, calls]

/-- One of C3's instances: a router that refuses everything, in `demoState`. -/
theorem consume_refused_changes_nothing_witness :
    (consume_start (fun _ _ => false) demoState "a" 5 "video" 9).effects
        = [Effect.reply "a" (.error cannotConsumeMessage)]
    ∧ (consume_start (fun _ _ => false) demoState "a" 5 "video" 9).state = demoState :=
  have h := consume_refused_changes_nothing (fun _ _ => false) demoState "a" 5 "video" 9 rfl
  ⟨h.1, h.2.2.1⟩

/-! ## C4 and C5: `disconnect` -/

theorem closeAll_append (fails : EngineCall → Option String) (xs ys : List EngineCall) :
    closeAll fails (xs ++ ys)
      = match closeAll fails xs with
        | (e, some err) => (e, some err)
        | (e, none) => (e ++ (closeAll fails ys).1, (closeAll fails ys).2) := by
  induction xs with
  | nil => simp [closeAll]
  | cons c cs ih =>
    cases hc : fails c with
    | some err => simp [closeAll, hc]
    | none =>
      rcases h2 : closeAll fails cs with ⟨e, _ | err⟩ <;>
      simp [closeAll, hc, ih, h2]

theorem closeAll_of_none (fails : EngineCall → Option String) (cs : List EngineCall)
    (h : ∀ c ∈ cs, fails c = none) : closeAll fails cs = (cs.map Effect.call, none) := by
  induction cs with
  | nil => rfl
  | cons c cs ih =>
    have hc : fails c = none := h c (by simp)
    have := ih (fun d hd => h d (by simp [hd]))
    simp [closeAll, hc, this]

theorem closeAll_of_some (fails : EngineCall → Option String) (cs : List EngineCall)
    (c : EngineCall) (hc : c ∈ cs) (h : fails c ≠ none) :
    (closeAll fails cs).2 ≠ none
    ∧ calls (closeAll fails cs).1
        = cs.takeWhile (fun d => (fails d).isNone)
          ++ (cs.dropWhile (fun d => (fails d).isNone)).take 1 := by
  induction cs with
  | nil => simp at hc
  | cons d ds ih =>
    cases hd : fails d with
    | some err => simp [closeAll, hd, calls, List.takeWhile_cons, List.dropWhile_cons]
    | none =>
      have hcd : c ∈ ds := by
        rcases List.mem_cons.mp hc with e | e
        · rw [e] at h; exact absurd hd h
        · exact e
      have := ih hcd
      simp [closeAll, hd, calls, List.takeWhile_cons, List.dropWhile_cons, this]

theorem calls_map_call (cs : List EngineCall) : calls (cs.map Effect.call) = cs := by
  induction cs with
  | nil => rfl
  | cons c cs ih => simp [calls, ih]

theorem emits_map_call (cs : List EngineCall) : emits (cs.map Effect.call) = [] := by
  induction cs with
  | nil => rfl
  | cons c cs ih => simp [emits, ih]

theorem emits_closeAll (fails : EngineCall → Option String) (cs : List EngineCall) :
    emits (closeAll fails cs).1 = [] := by
  induction cs with
  | nil => rfl
  | cons c cs ih => cases hc : fails c <;> simp [closeAll, hc, emits, ih]

/-- The handler of a registered socket is one pass over `sessionCloses` that
stops at the first exception, followed, if none was thrown, by the three
`delete`s and `io.emit`. -/
theorem disconnect_eq (fails : EngineCall → Option String) (s : State) (A : ClientId)
    (ps : List Producer) (cs : List Consumer)
    (hP : s.producers.lookup A = some ps) (hC : s.consumers.lookup A = some cs) :
    disconnect fails s A
      = match closeAll fails (sessionCloses s A) with
        | (e, some err) => ⟨s, e, some err⟩
        | (e, none) =>
          ⟨unregister s A, e ++ s.sockets.map (fun B => Effect.emit B (.removeClient A)), none⟩ := by
  simp only [disconnect, sessionCloses, hP, hC, Option.getD_some, closeAll_append, unregister]
  rcases h1 : closeAll fails (transportCloses s A) with ⟨e1, _ | err1⟩
  · rcases h2 : closeAll fails (ps.map fun p => EngineCall.closeProducer p.id) with ⟨e2, _ | err2⟩
    · rcases h3 : closeAll fails (cs.map fun c => EngineCall.closeConsumer c.id) with ⟨e3, _ | err3⟩
      · simp [h2, h3]
      · simp [h2, h3]
    · simp [h2]
  · simp

theorem departure_eq (s : State) (X : ClientId) (fails : EngineCall → Option String)
    (ps : List Producer) (cs : List Consumer) (hX : X ∈ s.sockets)
    (hP : s.producers.lookup X = some ps) (hC : s.consumers.lookup X = some cs) :
    departure s X fails
      = match closeAll fails (sessionCloses s X) with
        | (e, some err) =>
          ⟨{ s with sockets := s.sockets.filter (fun B => decide (B ≠ X)) }, e, some err⟩
        | (e, none) =>
          ⟨unregister { s with sockets := s.sockets.filter (fun B => decide (B ≠ X)) } X,
            e ++ (s.sockets.filter (fun B => decide (B ≠ X))).map
              (fun B => Effect.emit B (.removeClient X)), none⟩ := by
  simp only [departure, step, hX, if_true]
  exact disconnect_eq fails _ X ps cs hP hC

theorem length_sessionCloses (s : State) (X : ClientId) (rec : TransportRecord)
    (ps : List Producer) (cs : List Consumer)
    (hT : s.transports.lookup X = some rec)
    (hP : s.producers.lookup X = some ps) (hC : s.consumers.lookup X = some cs) :
    (sessionCloses s X).length
      = ps.length + cs.length
        + (rec.producerTransport.toList.length + rec.consumerTransports.length) := by
  simp [sessionCloses, transportCloses, hT, hP, hC]
  omega

theorem isClose_sessionCloses (s : State) (X : ClientId) :
    ∀ c ∈ sessionCloses s X, c.isClose = true := by
  intro c hc
  simp only [sessionCloses, transportCloses, List.mem_append, List.mem_map] at hc
  rcases hc with (hc | ⟨p, _, rfl⟩) | ⟨d, _, rfl⟩
  · cases h : s.transports.lookup X with
    | none => simp [h] at hc
    | some rec =>
      simp only [h, List.mem_map] at hc
      obtain ⟨t, _, rfl⟩ := hc
      rfl
  · rfl
  · rfl

/-- C4, refuted as stated: in `demoState` the socket `"a"` owns one producer and
one consumer, yet its `disconnect` makes four `close()` calls, not two, because
its two transports are closed as well. -/
theorem disconnect_close_count_counterexample :
    demoState.producers.lookup "a" = some [⟨5, "video", 1⟩]
    ∧ demoState.consumers.lookup "a" = some [⟨6, "audio", 60, 2⟩]
    ∧ (calls (departure demoState "a" (fun _ => none)).effects).filter EngineCall.isClose
        = [.closeTransport 1, .closeTransport 2, .closeProducer 5, .closeConsumer 6]
    ∧ ((calls (departure demoState "a" (fun _ => none)).effects).filter
        EngineCall.isClose).length ≠ 1 + 1 := by
  decide

/-- C4, amended: when no `close()` throws, the `disconnect` of a registered,
connected socket `X` with `N` producers and `M` consumers makes exactly the
calls of `sessionCloses`, all of them `close()`s: one per producer, one per
consumer and one per transport of `X`, that is `N + M` plus the number of its
transports; it emits `removeClient {clientId: X}` exactly once to every
remaining socket and to nobody else, and afterwards none of the three maps has an
entry for `X`. -/
theorem disconnect_closes_session_and_unregisters (s : State) (X : ClientId)
    (rec : TransportRecord) (ps : List Producer) (cs : List Consumer)
    (hX : X ∈ s.sockets) (hN : s.sockets.Nodup)
    (hT : s.transports.lookup X = some rec)
    (hP : s.producers.lookup X = some ps) (hC : s.consumers.lookup X = some cs) :
    calls (departure s X (fun _ => none)).effects = sessionCloses s X
    ∧ (∀ c ∈ calls (departure s X (fun _ => none)).effects, c.isClose = true)
    ∧ (calls (departure s X (fun _ => none)).effects).length
        = ps.length + cs.length
          + (rec.producerTransport.toList.length + rec.consumerTransports.length)
    ∧ (∀ B, B ∈ s.sockets → B ≠ X →
        emitsTo B (departure s X (fun _ => none)).effects = [.removeClient X])
    ∧ (∀ B, B ∉ s.sockets ∨ B = X → emitsTo B (departure s X (fun _ => none)).effects = [])
    ∧ (departure s X (fun _ => none)).state.transports.lookup X = none
    ∧ (departure s X (fun _ => none)).state.producers.lookup X = none
    ∧ (departure s X (fun _ => none)).state.consumers.lookup X = none
    ∧ (departure s X (fun _ => none)).uncaught = none := by
  have h := departure_eq s X (fun _ => none) ps cs hX hP hC
  rw [closeAll_of_none _ _ (fun _ _ => rfl)] at h
  simp only at h
  have hcalls : calls (departure s X (fun _ => none)).effects = sessionCloses s X := by
    rw [h]; simp [calls_append, calls_map_call, calls_map_emit]
  have hemits : ∀ B, emitsTo B (departure s X (fun _ => none)).effects
      = emitsTo B ((s.sockets.filter (fun B => decide (B ≠ X))).map
          (fun B => Effect.emit B (.removeClient X))) := by
    intro B; rw [h]; simp [emitsTo, emits_append, emits_map_call]
  refine ⟨hcalls, ?_, ?_, ?_, ?_, ?_, ?_, ?_, ?_⟩
  · rw [hcalls]; exact isClose_sessionCloses s X
  · rw [hcalls]; exact length_sessionCloses s X rec ps cs hT hP hC
  · intro B hB hBX
    rw [hemits]
    exact emitsTo_map_emit_of_mem _ _ B (hN.filter _) (by simp [hB, hBX])
  · intro B hB
    rw [hemits]
    apply emitsTo_map_emit_of_not_mem
    rcases hB with hB | hB
    · simp [hB]
    · simp [hB]
  · rw [h]; exact lookup_jsDelete_self _ _
  · rw [h]; exact lookup_jsDelete_self _ _
  · rw [h]; exact lookup_jsDelete_self _ _
  · rw [h]

/-- One of the amended C4's instances: `"a"` leaves `demoState`. -/
theorem disconnect_closes_session_and_unregisters_witness :
    "a" ∈ demoState.sockets ∧ demoState.sockets.Nodup
    ∧ (calls (departure demoState "a" (fun _ => none)).effects).length = 1 + 1 + (1 + 1)
    ∧ emitsTo "b" (departure demoState "a" (fun _ => none)).effects = [.removeClient "a"]
    ∧ (departure demoState "a" (fun _ => none)).state.producers.lookup "a" = none :=
  have h := disconnect_closes_session_and_unregisters demoState "a"
    ⟨some ⟨1, 10, 11, 12⟩, [⟨2, 20, 21, 22⟩]⟩ [⟨5, "video", 1⟩] [⟨6, "audio", 60, 2⟩]
    (by decide) (by decide) (by decide) (by decide) (by decide)
  ⟨by decide, by decide, h.2.2.1, h.2.2.2.1 "b" (by decide) (by decide), h.2.2.2.2.2.2.1⟩

/-- C5, refuted as stated: in `demoState`, when closing producer 5 throws, the
`disconnect` of `"a"` lets the exception escape, never closes consumer 6, keeps
the three entries of `"a"` and emits no `removeClient`. -/
theorem disconnect_failure_counterexample :
    (departure demoState "a" producerFiveFails).uncaught = some "close failed"
    ∧ calls (departure demoState "a" producerFiveFails).effects
        = [.closeTransport 1, .closeTransport 2, .closeProducer 5]
    ∧ EngineCall.closeConsumer 6 ∈ sessionCloses demoState "a"
    ∧ (departure demoState "a" producerFiveFails).state.transports.lookup "a"
        = demoState.transports.lookup "a"
    ∧ (departure demoState "a" producerFiveFails).state.producers.lookup "a"
        = some [⟨5, "video", 1⟩]
    ∧ (departure demoState "a" producerFiveFails).state.consumers.lookup "a"
        = some [⟨6, "audio", 60, 2⟩]
    ∧ emits (departure demoState "a" producerFiveFails).effects = [] := by
  decide

/-- C5, amended: for a registered, connected socket `X` and any behaviour of
`close()`: if no `close()` of the session throws, every transport, producer and
consumer of `X` is closed, the three entries of `X` are deleted, `removeClient`
is emitted to every remaining socket and nothing escapes the handler; if one of
them throws, the handler stops there: the calls made are those up to and
including the first one that throws, the exception escapes, the three maps are
left as they were and no `removeClient` is emitted. -/
theorem disconnect_stops_at_first_failure (s : State) (X : ClientId)
    (fails : EngineCall → Option String) (ps : List Producer) (cs : List Consumer)
    (hX : X ∈ s.sockets) (hN : s.sockets.Nodup)
    (hP : s.producers.lookup X = some ps) (hC : s.consumers.lookup X = some cs) :
    ((∀ c ∈ sessionCloses s X, fails c = none) →
        calls (departure s X fails).effects = sessionCloses s X
        ∧ (departure s X fails).state.transports.lookup X = none
        ∧ (departure s X fails).state.producers.lookup X = none
        ∧ (departure s X fails).state.consumers.lookup X = none
        ∧ (∀ B, B ∈ s.sockets → B ≠ X →
            emitsTo B (departure s X fails).effects = [.removeClient X])
        ∧ (departure s X fails).uncaught = none)
    ∧ ((∃ c ∈ sessionCloses s X, fails c ≠ none) →
        calls (departure s X fails).effects
          = (sessionCloses s X).takeWhile (fun c => (fails c).isNone)
            ++ ((sessionCloses s X).dropWhile (fun c => (fails c).isNone)).take 1
        ∧ (departure s X fails).uncaught ≠ none
        ∧ (departure s X fails).state.transports = s.transports
        ∧ (departure s X fails).state.producers = s.producers
        ∧ (departure s X fails).state.consumers = s.consumers
        ∧ emits (departure s X fails).effects = []) := by
  have h := departure_eq s X fails ps cs hX hP hC
  constructor
  · intro hok
    rw [closeAll_of_none _ _ hok] at h
    simp only at h
    refine ⟨?_, ?_, ?_, ?_, ?_, ?_⟩
    · rw [h]; simp [calls_append, calls_map_call, calls_map_emit]
    · rw [h]; exact lookup_jsDelete_self _ _
    · rw [h]; exact lookup_jsDelete_self _ _
    · rw [h]; exact lookup_jsDelete_self _ _
    · intro B hB hBX
      have : emitsTo B (departure s X fails).effects
          = emitsTo B ((s.sockets.filter (fun B => decide (B ≠ X))).map
              (fun B => Effect.emit B (.removeClient X))) := by
        rw [h]; simp [emitsTo, emits_append, emits_map_call]
      rw [this]
      exact emitsTo_map_emit_of_mem _ _ B (hN.filter _) (by simp [hB, hBX])
    · rw [h]
  · rintro ⟨c, hc, hf⟩
    obtain ⟨h2, hcalls⟩ := closeAll_of_some fails (sessionCloses s X) c hc hf
    have hem := emits_closeAll fails (sessionCloses s X)
    rcases hr : closeAll fails (sessionCloses s X) with ⟨e, _ | err⟩
    · rw [hr] at h2; exact absurd rfl h2
    · rw [hr] at h hcalls hem
      simp only at h hcalls hem
      rw [h]
      exact ⟨hcalls, by simp, rfl, rfl, rfl, hem⟩

/-- One of the amended C5's instances: in `demoState`, closing producer 5
throws. -/
theorem disconnect_stops_at_first_failure_witness :
    "a" ∈ demoState.sockets ∧ demoState.sockets.Nodup
    ∧ (departure demoState "a" producerFiveFails).uncaught ≠ none
    ∧ (departure demoState "a" producerFiveFails).state.producers = demoState.producers :=
  have h := (disconnect_stops_at_first_failure demoState "a" producerFiveFails
    [⟨5, "video", 1⟩] [⟨6, "audio", 60, 2⟩] (by decide) (by decide) (by decide) (by decide)).2
    ⟨.closeProducer 5, by decide, by decide⟩
  ⟨by decide, by decide, h.2.1, h.2.2.2.1⟩

/-! ## C6: `produce` and the state of the transport -/

/-- C6, refuted as stated: after `unconnectedTransport` the engine has connected
no transport, yet a `produce` of `"a"` for which the engine's `produce` resolves
is answered `{id: 7}`, the producer is stored and `"b"` is notified. -/
theorem produce_unconnected_counterexample :
    (run init unconnectedTransport).dtlsConnected = []
    ∧ (run init unconnectedTransport).transports.lookup "a" = some ⟨some ⟨1, 10, 11, 12⟩, []⟩
    ∧ (produceSettled (run init unconnectedTransport) "a" "video" 3 ⟨1, 10, 11, 12⟩
        (.ok ⟨7, "video"⟩)).effects
        = [Effect.reply "a" (.produced 7), Effect.emit "b" (.newProducer 7 "a" "video")]
    ∧ (produceSettled (run init unconnectedTransport) "a" "video" 3 ⟨1, 10, 11, 12⟩
        (.ok ⟨7, "video"⟩)).state.producers.lookup "a" = some [⟨7, "video", 1⟩] := by
  decide

theorem replies_closeAll (fails : EngineCall → Option String) (cs : List EngineCall) :
    replies (closeAll fails cs).1 = [] := by
  induction cs with
  | nil => rfl
  | cons c cs ih => cases hc : fails c <;> simp [closeAll, hc, replies, ih]

theorem replies_announceAll (C : ClientId) (m : List (ClientId × List Producer)) :
    replies (announceAll C m) = [] := by
  rw [announceAll_eq]
  generalize ownedProducers m = l
  induction l with
  | nil => rfl
  | cons x xs ih => simp [replies, ih]

theorem replies_disconnect (fails : EngineCall → Option String) (s : State) (A : ClientId) :
    replies (disconnect fails s A).effects = [] := by
  unfold disconnect
  rcases h1 : closeAll fails (transportCloses s A) with ⟨e1, _ | err1⟩
  · have r1 : replies e1 = [] := by
      have := replies_closeAll fails (transportCloses s A); rw [h1] at this; exact this
    cases hP : s.producers.lookup A with
    | none => simpa using r1
    | some ps =>
      rcases h2 : closeAll fails (ps.map fun p => EngineCall.closeProducer p.id) with ⟨e2, _ | err2⟩
      · have r2 : replies e2 = [] := by
          have := replies_closeAll fails (ps.map fun p => EngineCall.closeProducer p.id)
          rw [h2] at this; exact this
        cases hC : s.consumers.lookup A with
        | none => simp [h2, replies_append, r1, r2]
        | some cs =>
          rcases h3 : closeAll fails (cs.map fun c => EngineCall.closeConsumer c.id) with
            ⟨e3, _ | err3⟩
          · have r3 : replies e3 = [] := by
              have := replies_closeAll fails (cs.map fun c => EngineCall.closeConsumer c.id)
              rw [h3] at this; exact this
            simp [h2, h3, replies_append, r1, r2, r3, replies_map_emit]
          · have r3 : replies e3 = [] := by
              have := replies_closeAll fails (cs.map fun c => EngineCall.closeConsumer c.id)
              rw [h3] at this; exact this
            simp [h2, h3, replies_append, r1, r2, r3]
      · have r2 : replies e2 = [] := by
          have := replies_closeAll fails (ps.map fun p => EngineCall.closeProducer p.id)
          rw [h2] at this; exact this
        simp [h2, replies_append, r1, r2]
  · have r1 : replies e1 = [] := by
      have := replies_closeAll fails (transportCloses s A); rw [h1] at this; exact this
    simpa using r1

/-- A success answer to `produce` is only ever sent by the segment that follows
the engine's `produce`, for a suspended `produce` of the same socket. -/
theorem produced_reply_origin (s : State) (e : Event) (A : ClientId) (id : Nat)
    (h : (A, Reply.produced id) ∈ replies (step s e).effects) :
    ∃ t kind p, e = .settle (.produce A t kind) (.producer (.ok p)) ∧ p.id = id
      ∧ Cont.produce A t kind ∈ s.pending := by
  cases e with
  | connection B =>
    simp only [step] at h
    split at h <;> simp [connection, idle, replies] at h
  | produceDone B =>
    simp only [step] at h
    split at h
    · simp [produceDone, replies_announceAll] at h
    · simp [idle, replies] at h
  | createProducerTransport B =>
    simp only [step] at h
    split at h <;> simp [createProducerTransport_start, suspend, idle, replies] at h
  | createConsumerTransport B =>
    simp only [step] at h
    split at h <;> simp [createConsumerTransport_start, suspend, idle, replies] at h
  | connectProducerTransport B payload =>
    simp only [step, connectProducerTransport_start] at h
    repeat' split at h
    all_goals simp [rejected, replyOnly, suspend, idle, replies] at h
  | connectConsumerTransport B payload =>
    simp only [step, connectConsumerTransport_start] at h
    repeat' split at h
    all_goals simp [rejected, replyOnly, suspend, idle, replies] at h
  | produce B payload =>
    simp only [step, produce_start] at h
    repeat' split at h
    all_goals simp [rejected, replyOnly, suspend, idle, replies] at h
  | consume B producerId kind caps can =>
    simp only [step, consume_start] at h
    repeat' split at h
    all_goals simp [rejected, replyOnly, suspend, idle, replies] at h
  | disconnect B fails =>
    simp only [step] at h
    split at h
    · simp [replies_disconnect] at h
    · simp [idle, replies] at h
  | settle k r =>
    simp only [step] at h
    split at h
    · rename_i hk
      cases k <;> cases r <;>
        simp only [resume, Option.getD_some, Option.getD_none, createProducerTransport_resume,
          createConsumerTransport_resume, connectTransport_resume, produce_resume,
          consume_afterCreate, consume_afterConsume, storeConsumer, ack_start, ack_afterConnect,
          ack_afterConsume] at h
      all_goals try (repeat' split at h)
      all_goals try (simp [rejected, replyOnly, suspend, idle, replies] at h; done)
      simp only [replies, replies_map_emit, List.append_nil, List.mem_singleton, Prod.mk.injEq,
        Reply.produced.injEq] at h
      obtain ⟨h1, h2⟩ := h
      subst h1
      exact ⟨_, _, _, rfl, h2.symm, hk⟩
    · simp [idle, replies] at h

/-! ## C7 and C8: the self-healing branch of `consume` -/

theorem mem_erase_append_self (l : List Cont) (k k2 : Cont) :
    k2 ∈ (l ++ [k]).erase k ++ [k2] := by
  simp

theorem erase_append_self_erase (l : List Cont) (k : Cont) (h : k ∉ l) :
    (l ++ [k]).erase k = l := by
  rw [List.erase_append_right _ h]
  simp

/-- C7: for a connected socket `A` whose record has no consumer-side transport,
when the router accepts the request and every engine call succeeds, the five
segments of the self-healing `consume` do, in order: call `createWebRtcTransport`
(once, without answering); store the transport `t` and emit
`getDtlsParametersForConsumer` to `A` (without answering); on the client's
answer call `t.connect` with its DTLS parameters; then call `t.consume`; then
answer the original request once with `{id, producerId, kind, rtpParameters}` of
the consumer.  At the end the record of `A` holds exactly the one consumer-side
transport `t`, the consumer made on `t` is appended to the consumer list of `A`,
and the engine has connected `t`. -/
theorem consume_self_heal_resolves (s : State) (A : ClientId) (rec : TransportRecord)
    (cs : List Consumer) (producerId : Nat) (kind : String) (caps : Nat) (t : Transport)
    (d : Option Nat) (c : ConsumerData)
    (hA : A ∈ s.sockets) (hT : s.transports.lookup A = some rec)
    (hE : rec.consumerTransports = []) (hC : s.consumers.lookup A = some cs) :
    (trace s (selfHeal A producerId kind caps t (.object d) (.ok ()) (.ok c))).map
        (fun o => o.effects)
      = [[Effect.call .createWebRtcTransport],
         [Effect.emit A .getDtlsParametersForConsumer],
         [Effect.call (.connect t.id d)],
         [Effect.call (.consume t.id producerId caps)],
         [Effect.reply A (.consumed c.id producerId c.kind c.rtpParameters)]]
    ∧ (trace s (selfHeal A producerId kind caps t (.object d) (.ok ()) (.ok c))).map
        (fun o => o.uncaught) = [none, none, none, none, none]
    ∧ (run s (selfHeal A producerId kind caps t (.object d) (.ok ()) (.ok c))).transports.lookup A
        = some ⟨rec.producerTransport, [t]⟩
    ∧ (run s (selfHeal A producerId kind caps t (.object d) (.ok ()) (.ok c))).consumers.lookup A
        = some (cs ++ [⟨c.id, c.kind, c.rtpParameters, t.id⟩])
    ∧ t.id ∈ (run s (selfHeal A producerId kind caps t (.object d) (.ok ()) (.ok c))).dtlsConnected := by
  have h1 : step s (.consume A producerId kind caps true)
      = suspend s (.consumeCreate A producerId caps) .createWebRtcTransport := by
    simp [step, hA, consume_start, hT, hE]
  simp only [selfHeal, trace, run, h1, suspend]
  simp [step, resume, consume_afterCreate, hT, hE, ack_start, suspend, ack_afterConnect,
    ack_afterConsume, storeConsumer, hC, lookup_jsSet_self]

/-- One of C7's instances: `"b"`, which has no consumer-side transport in
`demoState`, consumes producer 5. -/
theorem consume_self_heal_resolves_witness :
    "b" ∈ demoState.sockets
    ∧ (run demoState (selfHeal "b" 5 "video" 9 ⟨3, 30, 31, 32⟩ (.object (some 8)) (.ok ())
        (.ok ⟨4, "video", 40⟩))).transports.lookup "b" = some ⟨none, [⟨3, 30, 31, 32⟩]⟩
    ∧ (run demoState (selfHeal "b" 5 "video" 9 ⟨3, 30, 31, 32⟩ (.object (some 8)) (.ok ())
        (.ok ⟨4, "video", 40⟩))).consumers.lookup "b" = some ([] ++ [⟨4, "video", 40, 3⟩]) :=
  have h := consume_self_heal_resolves demoState "b" ⟨none, []⟩ [] 5 "video" 9 ⟨3, 30, 31, 32⟩
    (some 8) ⟨4, "video", 40⟩ (by decide) (by decide) rfl (by decide)
  ⟨by decide, h.2.2.1, h.2.2.2.1⟩

/-- The failures of the acknowledgement callback that happen inside its `try`
are answered: a failing `connect`, a failing `consume`, and a consumer list that a
`disconnect` has deleted in the meantime each end in one `{error}` answer and
leave the state as it was. -/
theorem ack_failures_inside_try_answered (s : State) (A : ClientId) (t : Transport)
    (producerId caps : Nat) (m : String) (c : ConsumerData) :
    ack_afterConnect s A t producerId caps (.error m) = replyOnly s A (.error m)
    ∧ ack_afterConsume s A t producerId (.error m) = replyOnly s A (.error m)
    ∧ (s.consumers.lookup A = none →
        ack_afterConsume s A t producerId (.ok c) = replyOnly s A (.error typeErrorMessage)) := by
  refine ⟨rfl, rfl, ?_⟩
  intro h
  simp [ack_afterConsume, storeConsumer, h]

/-- An acknowledgement without argument ends the self-healing `consume`: the
callback's promise is rejected, nothing is answered, and the request has no
continuation left. -/
theorem ack_undefined_rejected (s : State) (A : ClientId) (t : Transport)
    (producerId caps : Nat) (h : Cont.dtlsAck A t producerId caps ∈ s.pending) :
    step s (.settle (.dtlsAck A t producerId caps) (.answer .undefined))
      = ⟨{ s with pending := s.pending.erase (.dtlsAck A t producerId caps) }, [],
          some typeErrorMessage⟩ := by
  simp [step, h, resume, ack_start, rejected]

/-- C8, evaluated where the code departs from it: in `demoState`, `"b"` starts a
self-healing `consume` and acknowledges `getDtlsParametersForConsumer` without
an argument.  No segment answers the original request, the callback ends with
an exception that nothing catches, and no continuation of the request is
left, so no answer will ever follow. -/
theorem ack_without_payload_never_answers :
    (trace demoState (selfHeal "b" 5 "video" 9 ⟨3, 30, 31, 32⟩ .undefined (.ok ())
        (.ok ⟨4, "video", 40⟩))).map (fun o => replies o.effects) = [[], [], [], [], []]
    ∧ (trace demoState (selfHeal "b" 5 "video" 9 ⟨3, 30, 31, 32⟩ .undefined (.ok ())
        (.ok ⟨4, "video", 40⟩))).map (fun o => o.uncaught)
        = [none, none, some typeErrorMessage, none, none]
    ∧ (run demoState (selfHeal "b" 5 "video" 9 ⟨3, 30, 31, 32⟩ .undefined (.ok ())
        (.ok ⟨4, "video", 40⟩))).pending = []
    ∧ (run demoState (selfHeal "b" 5 "video" 9 ⟨3, 30, 31, 32⟩ .undefined (.ok ())
        (.ok ⟨4, "video", 40⟩))).consumers.lookup "b" = some [] := by
  decide

/-! ## C9: two `consume` requests in flight -/

/-- C9, refuted as stated: in `demoState` the socket `"b"` has no consumer-side
transport; with `racingConsumes` both requests call `createWebRtcTransport` and
the record of `"b"` ends with two consumer-side transports. -/
theorem consume_race_counterexample :
    demoState.transports.lookup "b" = some ⟨none, []⟩
    ∧ (trace demoState racingConsumes).map (fun o => calls o.effects)
        = [[.createWebRtcTransport], [.createWebRtcTransport], [], []]
    ∧ (run demoState racingConsumes).transports.lookup "b"
        = some ⟨none, [⟨3, 30, 31, 32⟩, ⟨4, 40, 41, 42⟩]⟩ := by
  decide

/-! ## Every turn of the event loop is a `Move` -/

theorem move_idle (e : Event) (s : State) : Move e s (idle s).state :=
  .quiet ⟨rfl, rfl, rfl⟩ (fun _ h => h)

theorem move_suspend (e : Event) (s : State) (k : Cont) (c : EngineCall) (hk : Backed s k)
    (hn : k.createsConsumerTransport = true →
      e = .createConsumerTransport k.client
      ∨ ∃ rec, s.transports.lookup k.client = some rec ∧ rec.consumerTransports = [])
    (hq : ∀ t, k.producerTransport = some t →
      ∃ kind rtp, e = .produce k.client (.object kind rtp) ∧ k = .produce k.client t kind
        ∧ k.client ∈ s.sockets) :
    Move e s (suspend s k c).state := by
  refine .spawn k ⟨rfl, rfl, rfl⟩ (Or.inl hk) hn hq ?_
  intro j hj
  simpa [suspend] using hj

theorem backed_of_none (s : State) (k : Cont) (h1 : k.producerTransport = none)
    (h2 : k.consumerTransport = none) : Backed s k := by
  constructor
  · intro t ht; rw [h1] at ht; cases ht
  · intro t ht; rw [h2] at ht; cases ht

theorem mem_of_mem_erase_pending (s : State) (k : Cont) :
    ∀ j ∈ ({ s with pending := s.pending.erase k } : State).pending, j ∈ s.pending :=
  fun _ h => List.mem_of_mem_erase h

theorem move_createProducerTransport_resume (s : State) (A : ClientId)
    (r : Except String Transport) (hk : Cont.createProducerTransport A ∈ s.pending) :
    Move (.settle (.createProducerTransport A) (.transport r)) s
      (createProducerTransport_resume
        { s with pending := s.pending.erase (.createProducerTransport A) } A r).state := by
  cases r with
  | error m => exact .quiet ⟨rfl, rfl, rfl⟩ (mem_of_mem_erase_pending s _)
  | ok t =>
    simp only [createProducerTransport_resume]
    cases hl : s.transports.lookup A with
    | none => exact .quiet ⟨rfl, rfl, rfl⟩ (mem_of_mem_erase_pending s _)
    | some rec =>
      refine .setProducerTransport A rec t hl ?_ rfl rfl rfl (mem_of_mem_erase_pending s _)
      intro hs
      cases hpt : rec.producerTransport with
      | none => rfl
      | some t0 => simp [replacesFor, hk, hl, hpt] at hs

theorem move_createConsumerTransport_resume (e : Event) (s : State) (A : ClientId)
    (r : Except String Transport) (hk : Cont.createConsumerTransport A ∈ s.pending) :
    Move e s
      (createConsumerTransport_resume
        { s with pending := s.pending.erase (.createConsumerTransport A) } A r).state := by
  cases r with
  | error m => exact .quiet ⟨rfl, rfl, rfl⟩ (mem_of_mem_erase_pending s _)
  | ok t =>
    simp only [createConsumerTransport_resume]
    cases hl : s.transports.lookup A with
    | none => exact .quiet ⟨rfl, rfl, rfl⟩ (mem_of_mem_erase_pending s _)
    | some rec =>
      exact .pushConsumerTransport A rec t hl ⟨_, hk, rfl, rfl⟩ rfl rfl rfl
        (fun j hj => Or.inl (mem_of_mem_erase_pending s _ j hj))

theorem move_connectTransport_resume (e : Event) (s : State) (k : Cont) (A : ClientId)
    (t : Transport) (r : Except String Unit) :
    Move e s (connectTransport_resume { s with pending := s.pending.erase k } A t r).state := by
  cases r with
  | error m => exact .quiet ⟨rfl, rfl, rfl⟩ (mem_of_mem_erase_pending s _)
  | ok u => exact .quiet ⟨rfl, rfl, rfl⟩ (mem_of_mem_erase_pending s _)

theorem move_produce_resume (e : Event) (s : State) (A : ClientId) (t : Transport)
    (kind : String) (r : Except String ProducerData) (hk : Cont.produce A t kind ∈ s.pending) :
    Move e s
      (produce_resume { s with pending := s.pending.erase (.produce A t kind) } A t kind r).state := by
  cases r with
  | error m => exact .quiet ⟨rfl, rfl, rfl⟩ (mem_of_mem_erase_pending s _)
  | ok p =>
    simp only [produce_resume]
    cases hl : s.producers.lookup A with
    | none => exact .quiet ⟨rfl, rfl, rfl⟩ (mem_of_mem_erase_pending s _)
    | some ps =>
      exact .pushProducer A ps t ⟨p.id, p.kind, t.id⟩ hl ⟨_, hk, rfl, rfl⟩ rfl rfl rfl rfl
        (mem_of_mem_erase_pending s _)

theorem move_consume_afterCreate (e : Event) (s : State) (A : ClientId)
    (producerId caps : Nat) (r : Except String Transport)
    (hk : Cont.consumeCreate A producerId caps ∈ s.pending) :
    Move e s
      (consume_afterCreate { s with pending := s.pending.erase (.consumeCreate A producerId caps) }
        A producerId caps r).state := by
  cases r with
  | error m => exact .quiet ⟨rfl, rfl, rfl⟩ (mem_of_mem_erase_pending s _)
  | ok t =>
    simp only [consume_afterCreate]
    cases hl : s.transports.lookup A with
    | none => exact .quiet ⟨rfl, rfl, rfl⟩ (mem_of_mem_erase_pending s _)
    | some rec =>
      refine .pushConsumerTransport A rec t hl ⟨_, hk, rfl, rfl⟩ rfl rfl rfl ?_
      intro j hj
      rcases List.mem_append.mp hj with h | h
      · exact Or.inl (List.mem_of_mem_erase h)
      · rw [List.mem_singleton.mp h]
        exact Or.inr ⟨rfl, rfl, rfl⟩

theorem move_storeConsumer (e : Event) (s : State) (k : Cont) (A : ClientId) (t : Transport)
    (producerId : Nat) (r : Except String ConsumerData) (hk : k ∈ s.pending)
    (hA : k.client = A) (ht : k.consumerTransport = some t) :
    Move e s (storeConsumer { s with pending := s.pending.erase k } A t producerId r).state := by
  cases r with
  | error m => exact .quiet ⟨rfl, rfl, rfl⟩ (mem_of_mem_erase_pending s _)
  | ok c =>
    simp only [storeConsumer]
    cases hl : s.consumers.lookup A with
    | none => exact .quiet ⟨rfl, rfl, rfl⟩ (mem_of_mem_erase_pending s _)
    | some cs =>
      exact .pushConsumer A cs t ⟨c.id, c.kind, c.rtpParameters, t.id⟩ hl ⟨k, hk, hA, ht⟩ rfl
        rfl rfl rfl (mem_of_mem_erase_pending s _)

theorem move_heir (e : Event) (s : State) (s0 : State) (k0 k : Cont) (c : EngineCall)
    (hk : k0 ∈ s.pending) (hh : Heir k0 k) (hn : k.createsConsumerTransport = false)
    (hr : SameRegistry s s0) (hp : s0.pending = s.pending.erase k0) :
    Move e s (suspend s0 k c).state := by
  refine .spawn k hr (Or.inr ⟨k0, hk, hh⟩) ?_ ?_ ?_
  · intro h; rw [hn] at h; cases h
  · intro t ht; rw [hh.2.1] at ht; cases ht
  · intro j hj
    simp only [suspend, hp] at hj
    rcases List.mem_append.mp hj with h | h
    · exact Or.inl (List.mem_of_mem_erase h)
    · exact Or.inr (List.mem_singleton.mp h)

theorem move_ack_start (e : Event) (s : State) (A : ClientId) (t : Transport)
    (producerId caps : Nat) (payload : Payload)
    (hk : Cont.dtlsAck A t producerId caps ∈ s.pending) :
    Move e s
      (ack_start { s with pending := s.pending.erase (.dtlsAck A t producerId caps) } A t
        producerId caps payload).state := by
  cases payload with
  | undefined => exact .quiet ⟨rfl, rfl, rfl⟩ (mem_of_mem_erase_pending s _)
  | object d => exact move_heir e s _ _ _ _ hk ⟨rfl, rfl, rfl⟩ rfl ⟨rfl, rfl, rfl⟩ rfl

theorem move_ack_afterConnect (e : Event) (s : State) (A : ClientId) (t : Transport)
    (producerId caps : Nat) (r : Except String Unit)
    (hk : Cont.ackConnect A t producerId caps ∈ s.pending) :
    Move e s
      (ack_afterConnect { s with pending := s.pending.erase (.ackConnect A t producerId caps) } A t
        producerId caps r).state := by
  cases r with
  | error m => exact .quiet ⟨rfl, rfl, rfl⟩ (mem_of_mem_erase_pending s _)
  | ok u => exact move_heir e s _ _ _ _ hk ⟨rfl, rfl, rfl⟩ rfl ⟨rfl, rfl, rfl⟩ rfl

theorem disconnect_state (fails : EngineCall → Option String) (s : State) (A : ClientId) :
    (disconnect fails s A).state = s ∨ (disconnect fails s A).state = unregister s A := by
  unfold disconnect
  split
  · exact Or.inl rfl
  · split
    · exact Or.inl rfl
    · split
      · exact Or.inl rfl
      · split
        · exact Or.inl rfl
        · split
          · exact Or.inl rfl
          · exact Or.inr rfl

theorem move_start_lookup (e : Event) (s : State) (A : ClientId) (d : Option Nat)
    (pick : TransportRecord → Option Transport) (m : String) :
    Move e s
      (match s.transports.lookup A with
        | none => replyOnly s A (.error typeErrorMessage)
        | some rec =>
          match pick rec with
          | none => replyOnly s A (.error m)
          | some t => suspend s (.connectTransport A t) (.connect t.id d)).state := by
  cases s.transports.lookup A with
  | none => exact move_idle e s
  | some rec =>
    dsimp only
    cases pick rec with
    | none => exact move_idle e s
    | some t =>
      exact move_suspend e s _ _ (backed_of_none _ _ rfl rfl) (fun h => by cases h)
        (fun _ h => by cases h)

/-- Every turn of the event loop is a `Move`. -/
theorem step_move (s : State) (e : Event) : Move e s (step s e).state := by
  cases e with
  | connection A =>
    simp only [step]
    split
    · rename_i hf
      exact .register A hf rfl rfl rfl (fun _ h => h)
    · exact move_idle _ s
  | produceDone A =>
    simp only [step]
    split <;> exact move_idle _ s
  | createProducerTransport A =>
    simp only [step]
    split
    · exact move_suspend _ s _ _ (backed_of_none _ _ rfl rfl) (fun h => by cases h)
        (fun _ h => by cases h)
    · exact move_idle _ s
  | createConsumerTransport A =>
    simp only [step]
    split
    · exact move_suspend _ s _ _ (backed_of_none _ _ rfl rfl) (fun _ => Or.inl rfl)
        (fun _ h => by cases h)
    · exact move_idle _ s
  | connectProducerTransport A payload =>
    simp only [step]
    split
    · cases payload with
      | undefined => exact move_idle _ s
      | object d =>
        exact move_start_lookup _ s A d (fun rec => rec.producerTransport) _
    · exact move_idle _ s
  | connectConsumerTransport A payload =>
    simp only [step]
    split
    · cases payload with
      | undefined => exact move_idle _ s
      | object d =>
        exact move_start_lookup _ s A d (fun rec => rec.consumerTransports.head?) _
    · exact move_idle _ s
  | produce A payload =>
    simp only [step]
    split
    · rename_i hA
      cases payload with
      | undefined => exact move_idle _ s
      | object kind rtp =>
        simp only [produce_start]
        cases hl : s.transports.lookup A with
        | none => exact move_idle _ s
        | some rec =>
          dsimp only
          cases hpt : rec.producerTransport with
          | none => exact move_idle _ s
          | some t =>
            refine move_suspend _ s _ _ ⟨?_, ?_⟩ (fun h => by cases h) ?_
            · intro t2 ht2
              simp only [Cont.producerTransport, Option.some.injEq] at ht2
              exact ⟨rec, hl, by rw [hpt, ht2]⟩
            · intro t2 ht2
              simp [Cont.consumerTransport] at ht2
            · intro t2 ht2
              simp only [Cont.producerTransport, Option.some.injEq] at ht2
              exact ⟨kind, rtp, rfl, by rw [ht2]; rfl, hA⟩
    · exact move_idle _ s
  | consume A producerId kind caps can =>
    simp only [step]
    split
    · simp only [consume_start]
      cases can with
      | false => exact move_idle _ s
      | true =>
        simp only [if_true]
        cases hl : s.transports.lookup A with
        | none => exact move_idle _ s
        | some rec =>
          dsimp only
          cases hh : rec.consumerTransports.head? with
          | none =>
            exact move_suspend _ s _ _ (backed_of_none _ _ rfl rfl)
              (fun _ => Or.inr ⟨rec, hl, List.head?_eq_none_iff.mp hh⟩)
              (fun _ h => by cases h)
          | some t =>
            refine move_suspend _ s _ _ ⟨?_, ?_⟩ (fun h => by cases h) (fun _ h => by cases h)
            · intro t2 ht2
              simp [Cont.producerTransport] at ht2
            · intro t2 ht2
              simp only [Cont.consumerTransport, Option.some.injEq] at ht2
              exact ⟨rec, hl, by rw [← ht2]; exact List.mem_of_mem_head? hh⟩
    · exact move_idle _ s
  | disconnect A fails =>
    simp only [step]
    split
    · rcases disconnect_state fails
        { s with sockets := s.sockets.filter (fun B => decide (B ≠ A)) } A with h | h
      · rw [h]; exact .quiet ⟨rfl, rfl, rfl⟩ (fun _ h => h)
      · rw [h]; exact .unregister A ⟨fails, rfl⟩ rfl rfl rfl (fun _ h => h)
    · exact move_idle _ s
  | settle k r =>
    simp only [step]
    split
    · rename_i hk
      cases k with
      | createProducerTransport A =>
        cases r <;> first
          | exact move_idle _ s
          | exact move_createProducerTransport_resume s A _ hk
      | createConsumerTransport A =>
        cases r <;> first
          | exact move_idle _ s
          | exact move_createConsumerTransport_resume _ s A _ hk
      | connectTransport A t =>
        cases r <;> first
          | exact move_idle _ s
          | exact move_connectTransport_resume _ s _ A t _
      | produce A t kind =>
        cases r <;> first
          | exact move_idle _ s
          | exact move_produce_resume _ s A t kind _ hk
      | consumeCreate A producerId caps =>
        cases r <;> first
          | exact move_idle _ s
          | exact move_consume_afterCreate _ s A producerId caps _ hk
      | consumeDirect A t producerId =>
        cases r <;> first
          | exact move_idle _ s
          | exact move_storeConsumer _ s _ A t producerId _ hk rfl rfl
      | dtlsAck A t producerId caps =>
        cases r <;> first
          | exact move_idle _ s
          | exact move_ack_start _ s A t producerId caps _ hk
      | ackConnect A t producerId caps =>
        cases r <;> first
          | exact move_idle _ s
          | exact move_ack_afterConnect _ s A t producerId caps _ hk
      | ackConsume A t producerId =>
        cases r <;> first
          | exact move_idle _ s
          | exact move_storeConsumer _ s _ A t producerId _ hk rfl rfl
    · exact move_idle _ s

/-! ## C6: a success answer stems from a request that found a transport -/

theorem run_cons (s : State) (e : Event) (es : List Event) :
    run s (e :: es) = run (step s e).state es := rfl

/-- A suspended `produce` found after a turn of the event loop was suspended
before it, or the event is a `produce` request that found the captured transport
in the record of its socket. -/
theorem pending_produce_origin (s : State) (e : Event) (A : ClientId) (t : Transport)
    (kind : String) (h : Cont.produce A t kind ∈ (step s e).state.pending) :
    Cont.produce A t kind ∈ s.pending
    ∨ ∃ rtp rec, e = .produce A (.object kind rtp) ∧ A ∈ s.sockets
        ∧ s.transports.lookup A = some rec ∧ rec.producerTransport = some t := by
  have hm := step_move s e
  cases hm with
  | quiet h0 hp => exact Or.inl (hp _ h)
  | spawn k h0 hk hn hq hp =>
    rcases hp _ h with h1 | h1
    · exact Or.inl h1
    · subst h1
      obtain ⟨kind2, rtp, he, hkk, hs⟩ := hq t rfl
      simp only [Cont.client, Cont.produce.injEq, true_and] at hkk
      rcases hk with hk | ⟨k0, _, _, hnone, _⟩
      · obtain ⟨rec, hl, hpt⟩ := hk.1 t rfl
        exact Or.inr ⟨rtp, rec, by rw [he, hkk]; rfl, hs, hl, hpt⟩
      · cases hnone
  | setProducerTransport B rec t0 hl hs hT hP hC hp => exact Or.inl (hp _ h)
  | pushConsumerTransport B rec t0 hl hc hT hP hC hp =>
    rcases hp _ h with h1 | ⟨_, hnone, _⟩
    · exact Or.inl h1
    · cases hnone
  | pushProducer B ps t0 p hl hk hpt hT hP hC hp => exact Or.inl (hp _ h)
  | pushConsumer B cs t0 c hl hk hct hT hP hC hp => exact Or.inl (hp _ h)
  | register B hf hT hP hC hp => exact Or.inl (hp _ h)
  | unregister B he hT hP hC hp => exact Or.inl (hp _ h)

/-- Every suspended `produce` of a run was suspended at its start, or stems from a
request of the run that found the captured transport in the record of its
socket. -/
theorem pending_produce_requested (s : State) (es : List Event) (A : ClientId)
    (t : Transport) (kind : String) (h : Cont.produce A t kind ∈ (run s es).pending) :
    Cont.produce A t kind ∈ s.pending ∨ RequestedOnTransport s es A t kind := by
  induction es generalizing s with
  | nil => exact Or.inl h
  | cons e es ih =>
    rw [run_cons] at h
    rcases ih _ h with h1 | ⟨pre, post, rtp, rec, hes, hA, hl, hpt⟩
    · rcases pending_produce_origin s e A t kind h1 with h2 | ⟨rtp, rec, he, hA, hl, hpt⟩
      · exact Or.inl h2
      · exact Or.inr ⟨[], es, rtp, rec, by rw [he]; rfl, hA, hl, hpt⟩
    · exact Or.inr ⟨e :: pre, post, rtp, rec, by rw [hes]; rfl, hA, hl, hpt⟩

/-- A `produce` request without argument is not answered: the handler's promise
is rejected at the binding of `{ kind, rtpParameters }`, and nothing changes. -/
theorem produce_without_payload_rejected (s : State) (A : ClientId) (hA : A ∈ s.sockets) :
    step s (.produce A .undefined) = ⟨s, [], some typeErrorMessage⟩ := by
  simp [step, hA, produce_start, rejected]

/-- C6, amended: (1) in every run from the empty registry, a success answer
`{id}` to `A` is sent only when the engine's `produce` settles for a `produce`
request `{kind, rtpParameters}` of `A` which, when it arrived, found `A`
connected and holding the producer-side transport `t` the producer is made on
(whether `t` had been connected is not examined); (2) in every state, a
`produce` request `{kind, rtpParameters}` of a connected socket `A` that holds no
producer-side transport is answered `{error}` once, leaves the state as it
was (nothing is appended to a producer list, nothing stays suspended) and emits
no `newProducer`. -/
theorem produce_requires_transport (es : List Event) (e : Event) (s : State) (A : ClientId)
    (id : Nat) (kind : String) (rtp : Nat) :
    ((A, Reply.produced id) ∈ replies (step (run init es) e).effects →
        ∃ t kind2 p, e = .settle (.produce A t kind2) (.producer (.ok p)) ∧ p.id = id
          ∧ RequestedOnTransport init es A t kind2)
    ∧ (A ∈ s.sockets →
        (s.transports.lookup A).bind (fun rec => rec.producerTransport) = none →
        (step s (.produce A (.object kind rtp))).state = s
        ∧ (∃ m, (step s (.produce A (.object kind rtp))).effects = [Effect.reply A (.error m)])
        ∧ (step s (.produce A (.object kind rtp))).uncaught = none) := by
  constructor
  · intro h
    obtain ⟨t, kind2, p, he, hid, hk⟩ := produced_reply_origin _ e A id h
    rcases pending_produce_requested init es A t kind2 hk with h1 | h1
    · cases h1
    · exact ⟨t, kind2, p, he, hid, h1⟩
  · intro hA h
    cases hT : s.transports.lookup A with
    | none =>
      simp [step, hA, produce_start, hT, replyOnly]
    | some rec =>
      rw [hT] at h
      have hPT : rec.producerTransport = none := by simpa using h
      simp [step, hA, produce_start, hT, hPT, replyOnly]

/-- One of the amended C6's instances: after `unconnectedTransport`, the answer
`{id: 7}` to `"a"` stems from a request that found transport 1; and `"b"`, which
holds no producer-side transport in `demoState`, gets `{error}`. -/
theorem produce_requires_transport_witness :
    (("a", Reply.produced 7) ∈ replies (step (run init answeredProduce)
        (.settle (.produce "a" ⟨1, 10, 11, 12⟩ "video") (.producer (.ok ⟨7, "video"⟩)))).effects)
    ∧ (∃ t kind2 p,
        Event.settle (.produce "a" ⟨1, 10, 11, 12⟩ "video") (.producer (.ok ⟨7, "video"⟩))
            = Event.settle (.produce "a" t kind2) (.producer (.ok p))
          ∧ p.id = 7 ∧ RequestedOnTransport init answeredProduce "a" t kind2)
    ∧ "b" ∈ demoState.sockets
    ∧ (step demoState (.produce "b" (.object "video" 3))).state = demoState :=
  ⟨by decide,
    (produce_requires_transport answeredProduce
      (.settle (.produce "a" ⟨1, 10, 11, 12⟩ "video") (.producer (.ok ⟨7, "video"⟩)))
      demoState "a" 7 "video" 3).1 (by decide),
    by decide,
    ((produce_requires_transport [] (.produceDone "b") demoState "b" 0 "video" 3).2
      (by decide) (by decide)).1⟩

/-! ## C10: the invariants are kept by every turn -/

theorem lookup_jsSet {α : Type} (m : List (ClientId × α)) (k k2 : ClientId) (v : α) :
    (jsSet m k v).lookup k2 = if k2 = k then some v else m.lookup k2 := by
  by_cases h : k2 = k
  · rw [if_pos h, h]; exact lookup_jsSet_self m k v
  · rw [if_neg h]; exact lookup_jsSet_ne m k k2 v h

theorem lookup_jsDelete {α : Type} (m : List (ClientId × α)) (k k2 : ClientId) :
    (jsDelete m k).lookup k2 = if k2 = k then none else m.lookup k2 := by
  by_cases h : k2 = k
  · rw [if_pos h, h]; exact lookup_jsDelete_self m k
  · rw [if_neg h]; exact lookup_jsDelete_ne m k k2 h

theorem fresh_pending (s : State) (A : ClientId) (h : fresh s A = true) :
    ∀ k ∈ s.pending, k.client ≠ A := by
  intro k hk
  simp only [fresh, Bool.and_eq_true, List.all_eq_true, decide_eq_true_eq] at h
  exact h.2 k hk

theorem fresh_transports (s : State) (A : ClientId) (h : fresh s A = true) :
    s.transports.lookup A = none := by
  simp only [fresh, Bool.and_eq_true, Option.isNone_iff_eq_none] at h
  exact h.1.1.1.2

theorem consumers_move (e : Event) (s s2 : State) (hm : Move e s s2)
    (h1 : ConsumersOnHeldTransports s) (h2 : PendingConsumersBacked s) :
    ConsumersOnHeldTransports s2 ∧ PendingConsumersBacked s2 := by
  cases hm with
  | quiet h hp =>
    obtain ⟨hT, hP, hC⟩ := h
    constructor
    · intro A cs hcs c hc
      rw [hC] at hcs; rw [hT]
      exact h1 A cs hcs c hc
    · intro k hk t ht cs hcs
      rw [hC] at hcs; rw [hT]
      exact h2 k (hp k hk) t ht cs hcs
  | spawn k h hk hn hq hp =>
    obtain ⟨hT, hP, hC⟩ := h
    constructor
    · intro A cs hcs c hc
      rw [hC] at hcs; rw [hT]
      exact h1 A cs hcs c hc
    · intro j hj t ht cs hcs
      rw [hC] at hcs; rw [hT]
      rcases hp j hj with hj | hj
      · exact h2 j hj t ht cs hcs
      · subst hj
        rcases hk with hk | ⟨k0, hk0, hc0, _, ht0⟩
        · exact hk.2 t ht
        · rw [hc0] at hcs ⊢
          rw [ht0] at ht
          exact h2 k0 hk0 t ht cs hcs
  | setProducerTransport A rec t hl hs hT hP hC hp =>
    constructor
    · intro B cs hcs c hc
      rw [hC] at hcs; rw [hT, lookup_jsSet]
      obtain ⟨rec0, hr0, h0⟩ := h1 B cs hcs c hc
      by_cases hB : B = A
      · subst hB
        rw [hl] at hr0
        cases hr0
        exact ⟨_, if_pos rfl, h0⟩
      · exact ⟨rec0, by rw [if_neg hB]; exact hr0, h0⟩
    · intro k hk t0 ht cs hcs
      rw [hC] at hcs; rw [hT, lookup_jsSet]
      obtain ⟨rec0, hr0, h0⟩ := h2 k (hp k hk) t0 ht cs hcs
      by_cases hB : k.client = A
      · rw [hB] at hr0
        rw [hl] at hr0
        cases hr0
        exact ⟨_, if_pos hB, h0⟩
      · exact ⟨rec0, by rw [if_neg hB]; exact hr0, h0⟩
  | pushConsumerTransport A rec t hl hc hT hP hC hp =>
    constructor
    · intro B cs hcs c hc
      rw [hC] at hcs; rw [hT, lookup_jsSet]
      obtain ⟨rec0, hr0, t0, ht0, hc0⟩ := h1 B cs hcs c hc
      by_cases hB : B = A
      · subst hB
        rw [hl] at hr0
        cases hr0
        exact ⟨_, if_pos rfl, t0, List.mem_append_left _ ht0, hc0⟩
      · exact ⟨rec0, by rw [if_neg hB]; exact hr0, t0, ht0, hc0⟩
    · intro k hk t0 ht cs hcs
      rw [hC] at hcs; rw [hT, lookup_jsSet]
      rcases hp k hk with hk | ⟨hkA, _, hkt⟩
      · obtain ⟨rec0, hr0, h0⟩ := h2 k hk t0 ht cs hcs
        by_cases hB : k.client = A
        · rw [hB] at hr0
          rw [hl] at hr0
          cases hr0
          exact ⟨_, if_pos hB, List.mem_append_left _ h0⟩
        · exact ⟨rec0, by rw [if_neg hB]; exact hr0, h0⟩
      · rw [hkt] at ht
        cases ht
        exact ⟨_, if_pos hkA, by simp⟩
  | pushProducer A ps t p hl hk hpt hT hP hC hp =>
    constructor
    · intro B cs hcs c hc
      rw [hC] at hcs; rw [hT]
      exact h1 B cs hcs c hc
    · intro k hk t0 ht cs hcs
      rw [hC] at hcs; rw [hT]
      exact h2 k (hp k hk) t0 ht cs hcs
  | pushConsumer A cs t c hl hk hct hT hP hC hp =>
    obtain ⟨k, hkp, hkA, hkt⟩ := hk
    constructor
    · intro B cs2 hcs c2 hc
      rw [hC, lookup_jsSet] at hcs; rw [hT]
      by_cases hB : B = A
      · subst hB
        rw [if_pos rfl] at hcs
        cases hcs
        rcases List.mem_append.mp hc with hc | hc
        · exact h1 B cs hl c2 hc
        · rw [List.mem_singleton.mp hc]
          rw [← hkA] at hl
          obtain ⟨rec0, hr0, h0⟩ := h2 k hkp t hkt cs hl
          exact ⟨rec0, hkA ▸ hr0, t, h0, hct⟩
      · rw [if_neg hB] at hcs
        exact h1 B cs2 hcs c2 hc
    · intro j hj t0 ht cs2 hcs
      rw [hC, lookup_jsSet] at hcs; rw [hT]
      by_cases hB : j.client = A
      · rw [hB]
        rw [← hB] at hl
        obtain ⟨rec0, hr0, h0⟩ := h2 j (hp j hj) t0 ht cs hl
        exact ⟨rec0, hB ▸ hr0, h0⟩
      · rw [if_neg hB] at hcs
        exact h2 j (hp j hj) t0 ht cs2 hcs
  | register A hf hT hP hC hp =>
    constructor
    · intro B cs hcs c hc
      rw [hC, lookup_jsSet] at hcs; rw [hT, lookup_jsSet]
      by_cases hB : B = A
      · rw [if_pos hB] at hcs
        cases hcs
        cases hc
      · rw [if_neg hB] at hcs ⊢
        exact h1 B cs hcs c hc
    · intro k hk t0 ht cs hcs
      have hB : k.client ≠ A := fresh_pending s A hf k (hp k hk)
      rw [hC, lookup_jsSet, if_neg hB] at hcs; rw [hT, lookup_jsSet, if_neg hB]
      exact h2 k (hp k hk) t0 ht cs hcs
  | unregister A he hT hP hC hp =>
    constructor
    · intro B cs hcs c hc
      rw [hC, lookup_jsDelete] at hcs; rw [hT, lookup_jsDelete]
      by_cases hB : B = A
      · rw [if_pos hB] at hcs
        cases hcs
      · rw [if_neg hB] at hcs ⊢
        exact h1 B cs hcs c hc
    · intro k hk t0 ht cs hcs
      rw [hC, lookup_jsDelete] at hcs; rw [hT, lookup_jsDelete]
      by_cases hB : k.client = A
      · rw [if_pos hB] at hcs
        cases hcs
      · rw [if_neg hB] at hcs ⊢
        exact h2 k (hp k hk) t0 ht cs hcs

theorem producers_move (A : ClientId) (e : Event) (s s2 : State) (hm : Move e s s2)
    (hr : replacesFor A s e = false)
    (h1 : ProducersOnCurrentTransport s A) (h2 : PendingProducersBacked s A) :
    ProducersOnCurrentTransport s2 A ∧ PendingProducersBacked s2 A := by
  cases hm with
  | quiet h hp =>
    obtain ⟨hT, hP, hC⟩ := h
    constructor
    · intro ps hps p hp0
      rw [hP] at hps; rw [hT]
      exact h1 ps hps p hp0
    · intro k hk hkA t ht ps hps
      rw [hP] at hps; rw [hT]
      exact h2 k (hp k hk) hkA t ht ps hps
  | spawn k h hk hn hq hp =>
    obtain ⟨hT, hP, hC⟩ := h
    constructor
    · intro ps hps p hp0
      rw [hP] at hps; rw [hT]
      exact h1 ps hps p hp0
    · intro j hj hjA t ht ps hps
      rw [hP] at hps; rw [hT]
      rcases hp j hj with hj | hj
      · exact h2 j hj hjA t ht ps hps
      · subst hj
        rcases hk with hk | ⟨k0, _, _, hnone, _⟩
        · rw [← hjA]; exact hk.1 t ht
        · rw [hnone] at ht; cases ht
  | setProducerTransport B rec t hl hs hT hP hC hp =>
    by_cases hB : A = B
    · subst hB
      have hnone : rec.producerTransport = none := hs hr
      constructor
      · intro ps hps p hp0
        rw [hP] at hps
        obtain ⟨rec0, t0, hr0, hpt0, h0⟩ := h1 ps hps p hp0
        rw [hl] at hr0
        cases hr0
        rw [hnone] at hpt0
        cases hpt0
      · intro k hk hkA t0 ht ps hps
        rw [hP] at hps
        obtain ⟨rec0, hr0, h0⟩ := h2 k (hp k hk) hkA t0 ht ps hps
        rw [hl] at hr0
        cases hr0
        rw [hnone] at h0
        cases h0
    · constructor
      · intro ps hps p hp0
        rw [hP] at hps; rw [hT, lookup_jsSet, if_neg hB]
        exact h1 ps hps p hp0
      · intro k hk hkA t0 ht ps hps
        rw [hP] at hps; rw [hT, lookup_jsSet, if_neg hB]
        exact h2 k (hp k hk) hkA t0 ht ps hps
  | pushConsumerTransport B rec t hl hc hT hP hC hp =>
    constructor
    · intro ps hps p hp0
      rw [hP] at hps; rw [hT, lookup_jsSet]
      obtain ⟨rec0, t0, hr0, hpt0, h0⟩ := h1 ps hps p hp0
      by_cases hB : A = B
      · subst hB
        rw [hl] at hr0
        cases hr0
        exact ⟨_, t0, if_pos rfl, hpt0, h0⟩
      · exact ⟨rec0, t0, by rw [if_neg hB]; exact hr0, hpt0, h0⟩
    · intro k hk hkA t0 ht ps hps
      rw [hP] at hps; rw [hT, lookup_jsSet]
      rcases hp k hk with hk | ⟨_, hkn, _⟩
      · obtain ⟨rec0, hr0, h0⟩ := h2 k hk hkA t0 ht ps hps
        by_cases hB : A = B
        · subst hB
          rw [hl] at hr0
          cases hr0
          exact ⟨_, if_pos rfl, h0⟩
        · exact ⟨rec0, by rw [if_neg hB]; exact hr0, h0⟩
      · rw [hkn] at ht; cases ht
  | pushProducer B ps t p hl hk hpt hT hP hC hp =>
    obtain ⟨k, hkp, hkB, hkt⟩ := hk
    by_cases hB : A = B
    · subst hB
      constructor
      · intro ps2 hps p2 hp0
        rw [hP, lookup_jsSet, if_pos rfl] at hps; rw [hT]
        cases hps
        rcases List.mem_append.mp hp0 with hp0 | hp0
        · exact h1 ps hl p2 hp0
        · rw [List.mem_singleton.mp hp0]
          obtain ⟨rec0, hr0, h0⟩ := h2 k hkp hkB t hkt ps hl
          exact ⟨rec0, t, hr0, h0, hpt⟩
      · intro j hj hjA t0 ht ps2 hps
        rw [hT]
        exact h2 j (hp j hj) hjA t0 ht ps hl
    · constructor
      · intro ps2 hps p2 hp0
        rw [hP, lookup_jsSet, if_neg hB] at hps; rw [hT]
        exact h1 ps2 hps p2 hp0
      · intro j hj hjA t0 ht ps2 hps
        rw [hP, lookup_jsSet, if_neg hB] at hps; rw [hT]
        exact h2 j (hp j hj) hjA t0 ht ps2 hps
  | pushConsumer B cs t c hl hk hct hT hP hC hp =>
    constructor
    · intro ps hps p hp0
      rw [hP] at hps; rw [hT]
      exact h1 ps hps p hp0
    · intro k hk hkA t0 ht ps hps
      rw [hP] at hps; rw [hT]
      exact h2 k (hp k hk) hkA t0 ht ps hps
  | register B hf hT hP hC hp =>
    by_cases hB : A = B
    · subst hB
      constructor
      · intro ps hps p hp0
        rw [hP, lookup_jsSet, if_pos rfl] at hps
        cases hps
        cases hp0
      · intro k hk hkA t0 ht ps hps
        exact absurd hkA (fresh_pending s A hf k (hp k hk))
    · constructor
      · intro ps hps p hp0
        rw [hP, lookup_jsSet, if_neg hB] at hps; rw [hT, lookup_jsSet, if_neg hB]
        exact h1 ps hps p hp0
      · intro k hk hkA t0 ht ps hps
        rw [hP, lookup_jsSet, if_neg hB] at hps; rw [hT, lookup_jsSet, if_neg hB]
        exact h2 k (hp k hk) hkA t0 ht ps hps
  | unregister B he hT hP hC hp =>
    by_cases hB : A = B
    · subst hB
      constructor
      · intro ps hps p hp0
        rw [hP, lookup_jsDelete, if_pos rfl] at hps
        cases hps
      · intro k hk hkA t0 ht ps hps
        rw [hP, lookup_jsDelete, if_pos rfl] at hps
        cases hps
    · constructor
      · intro ps hps p hp0
        rw [hP, lookup_jsDelete, if_neg hB] at hps; rw [hT, lookup_jsDelete, if_neg hB]
        exact h1 ps hps p hp0
      · intro k hk hkA t0 ht ps hps
        rw [hP, lookup_jsDelete, if_neg hB] at hps; rw [hT, lookup_jsDelete, if_neg hB]
        exact h2 k (hp k hk) hkA t0 ht ps hps

theorem consumers_run (s : State) (es : List Event)
    (h1 : ConsumersOnHeldTransports s) (h2 : PendingConsumersBacked s) :
    ConsumersOnHeldTransports (run s es) ∧ PendingConsumersBacked (run s es) := by
  induction es generalizing s with
  | nil => exact ⟨h1, h2⟩
  | cons e es ih =>
    obtain ⟨h3, h4⟩ := consumers_move _ s _ (step_move s e) h1 h2
    exact ih _ h3 h4

theorem producers_run (A : ClientId) (s : State) (es : List Event)
    (hn : neverReplacesFor A s es = true)
    (h1 : ProducersOnCurrentTransport s A) (h2 : PendingProducersBacked s A) :
    ProducersOnCurrentTransport (run s es) A ∧ PendingProducersBacked (run s es) A := by
  induction es generalizing s with
  | nil => exact ⟨h1, h2⟩
  | cons e es ih =>
    simp only [neverReplacesFor, Bool.and_eq_true] at hn
    have hr : replacesFor A s e = false := by simpa using hn.1
    obtain ⟨h3, h4⟩ := producers_move A e s _ (step_move s e) hr h1 h2
    exact ih _ hn.2 h3 h4

/-- C10, refuted as stated: after `replacedTransport` the producer list of `"a"`
holds producer 7, made on transport 1, while the producer-side transport of
`"a"` is transport 2. -/
theorem producer_on_replaced_transport_counterexample :
    (run init replacedTransport).producers.lookup "a" = some [⟨7, "video", 1⟩]
    ∧ (run init replacedTransport).transports.lookup "a" = some ⟨some ⟨2, 20, 21, 22⟩, []⟩
    ∧ ¬ ProducersOnCurrentTransport (run init replacedTransport) "a" := by
  have h1 : (run init replacedTransport).producers.lookup "a" = some [⟨7, "video", 1⟩] := by
    decide
  have h2 : (run init replacedTransport).transports.lookup "a"
      = some ⟨some ⟨2, 20, 21, 22⟩, []⟩ := by decide
  refine ⟨h1, h2, ?_⟩
  intro h
  obtain ⟨rec, t, hr, ht, hp⟩ := h _ h1 ⟨7, "video", 1⟩ (by simp)
  rw [h2] at hr
  cases hr
  cases ht
  cases hp

/-- C10, amended: in every state reached from the empty registry by any
sequence of events (requests, disconnections and settlements in any
interleaving), every consumer in a consumer list was made on a transport held
among the consumer-side transports of the same socket; and for every socket `A`
for which no event of the sequence stored a producer-side transport while `A`
already held one, every producer in the producer list of `A` was made on the
current producer-side transport of `A`, whatever the other sockets did. -/
theorem handles_on_session_transports (es : List Event) :
    ConsumersOnHeldTransports (run init es)
    ∧ ∀ A, neverReplacesFor A init es = true → ProducersOnCurrentTransport (run init es) A := by
  constructor
  · refine (consumers_run init es ?_ ?_).1
    · intro A cs h; cases h
    · intro k hk; cases hk
  · intro A hn
    refine (producers_run A init es hn ?_ ?_).1
    · intro ps h; cases h
    · intro k hk; cases hk

/-! ## C9: one consumer-side transport once the first is stored -/

theorem sole_move (A : ClientId) (t : Transport) (e : Event) (s s2 : State)
    (hm : Move e s s2) (he : keepsSession A e = true) (h : SoleConsumerTransport A t s) :
    SoleConsumerTransport A t s2 := by
  obtain ⟨⟨rec, hrec, hcts⟩, hpend⟩ := h
  cases hm with
  | quiet h hp =>
    exact ⟨⟨rec, by rw [h.1]; exact hrec, hcts⟩, fun k hk => hpend k (hp k hk)⟩
  | spawn k h hk hn hq hp =>
    refine ⟨⟨rec, by rw [h.1]; exact hrec, hcts⟩, ?_⟩
    intro j hj hjA
    rcases hp j hj with hj | hj
    · exact hpend j hj hjA
    · subst hj
      cases hcr : j.createsConsumerTransport with
      | false => rfl
      | true =>
        rcases hn hcr with h0 | ⟨rec0, hr0, h0⟩
        · rw [h0, hjA] at he
          simp [keepsSession] at he
        · rw [hjA, hrec] at hr0
          cases hr0
          rw [hcts] at h0
          cases h0
  | setProducerTransport B rec0 t0 hl hs hT hP hC hp =>
    refine ⟨?_, fun k hk => hpend k (hp k hk)⟩
    rw [hT, lookup_jsSet]
    by_cases hB : A = B
    · subst hB
      rw [hrec] at hl
      cases hl
      exact ⟨_, if_pos rfl, hcts⟩
    · exact ⟨rec, by rw [if_neg hB]; exact hrec, hcts⟩
  | pushConsumerTransport B rec0 t0 hl hc hT hP hC hp =>
    obtain ⟨k, hk, hkB, hkc⟩ := hc
    have hB : A ≠ B := by
      intro hAB
      rw [← hAB] at hkB
      rw [hpend k hk hkB] at hkc
      cases hkc
    refine ⟨⟨rec, by rw [hT, lookup_jsSet, if_neg hB]; exact hrec, hcts⟩, ?_⟩
    intro j hj hjA
    rcases hp j hj with hj | ⟨hjB, _, _⟩
    · exact hpend j hj hjA
    · exact absurd (hjA.symm.trans hjB) hB
  | pushProducer B ps t0 p hl hk hpt hT hP hC hp =>
    exact ⟨⟨rec, by rw [hT]; exact hrec, hcts⟩, fun k hk => hpend k (hp k hk)⟩
  | pushConsumer B cs t0 c hl hk hct hT hP hC hp =>
    exact ⟨⟨rec, by rw [hT]; exact hrec, hcts⟩, fun k hk => hpend k (hp k hk)⟩
  | register B hf hT hP hC hp =>
    have hB : A ≠ B := by
      intro hAB
      have := fresh_transports s B hf
      rw [← hAB, hrec] at this
      cases this
    exact ⟨⟨rec, by rw [hT, lookup_jsSet, if_neg hB]; exact hrec, hcts⟩,
      fun k hk => hpend k (hp k hk)⟩
  | unregister B hev hT hP hC hp =>
    obtain ⟨fails, hev⟩ := hev
    have hB : A ≠ B := by
      intro hAB
      rw [hev, hAB] at he
      simp [keepsSession] at he
    exact ⟨⟨rec, by rw [hT, lookup_jsDelete, if_neg hB]; exact hrec, hcts⟩,
      fun k hk => hpend k (hp k hk)⟩

theorem sole_run (A : ClientId) (t : Transport) (s : State) (es : List Event)
    (hes : ∀ e ∈ es, keepsSession A e = true) (h : SoleConsumerTransport A t s) :
    SoleConsumerTransport A t (run s es) := by
  induction es generalizing s with
  | nil => exact h
  | cons e es ih =>
    exact ih _ (fun x hx => hes x (by simp [hx]))
      (sole_move A t e s _ (step_move s e) (hes e (by simp)) h)

/-- A later `consume` of a socket that holds a consumer-side transport asks the
router for no further one. -/
theorem consume_with_transport_creates_none (s : State) (A : ClientId) (rec : TransportRecord)
    (t : Transport) (producerId : Nat) (kind : String) (caps : Nat) (can : Bool)
    (hT : s.transports.lookup A = some rec) (hE : rec.consumerTransports = [t]) :
    EngineCall.createWebRtcTransport
      ∉ calls (step s (.consume A producerId kind caps can)).effects := by
  simp only [step]
  split
  · cases can <;> simp [consume_start, hT, hE, replyOnly, suspend, calls]
  · simp [idle, calls]

theorem sole_after_firstConsume (s : State) (A : ClientId) (rec : TransportRecord)
    (producerId : Nat) (kind : String) (caps : Nat) (t : Transport)
    (hA : A ∈ s.sockets) (hT : s.transports.lookup A = some rec)
    (hE : rec.consumerTransports = [])
    (hQ : ∀ k ∈ s.pending, k.client = A → k.createsConsumerTransport = false) :
    SoleConsumerTransport A t (run s (firstConsume A producerId kind caps t))
    ∧ (run s (firstConsume A producerId kind caps t)).transports.lookup A
        = some ⟨rec.producerTransport, [t]⟩ := by
  have h1 : step s (.consume A producerId kind caps true)
      = suspend s (.consumeCreate A producerId caps) .createWebRtcTransport := by
    simp [step, hA, consume_start, hT, hE]
  have hk : Cont.consumeCreate A producerId caps ∉ s.pending := by
    intro hk
    have := hQ _ hk rfl
    cases this
  have h2 : run s (firstConsume A producerId kind caps t)
      = { s with
          transports := jsSet s.transports A ⟨rec.producerTransport, [t]⟩,
          pending := s.pending ++ [.dtlsAck A t producerId caps] } := by
    simp only [firstConsume, run, h1, suspend]
    simp [step, resume, consume_afterCreate, hT, hE, erase_append_self_erase _ _ hk]
  rw [h2]
  refine ⟨⟨⟨_, lookup_jsSet_self _ _ _, rfl⟩, ?_⟩, lookup_jsSet_self _ _ _⟩
  intro k hk hkA
  rcases List.mem_append.mp hk with h | h
  · exact hQ k h hkA
  · rw [List.mem_singleton.mp h]; rfl

/-- C9, amended: let `A` be a connected socket with no consumer-side transport
and no transport creation of its own in flight.  (1) Once its first `consume`
has stored the transport `t`, that is, while it awaits the client's DTLS
parameters and at any time later, whatever events follow (further `consume`
requests of `A` included), short of `A` disconnecting or itself requesting
`createConsumerTransport`, the record of `A` keeps exactly the one
consumer-side transport `t`, and a `consume` of `A` calls no
`createWebRtcTransport`.  (2) A second `consume` that arrives while the first
still awaits `createWebRtcTransport` does ask for a transport of its own, and
when both are delivered the record of `A` holds the two of them. -/
theorem consume_single_transport_after_store (s : State) (A : ClientId)
    (rec : TransportRecord) (p1 : Nat) (k1 : String) (c1 : Nat) (t1 : Transport)
    (hA : A ∈ s.sockets) (hT : s.transports.lookup A = some rec)
    (hE : rec.consumerTransports = [])
    (hQ : ∀ k ∈ s.pending, k.client = A → k.createsConsumerTransport = false) :
    (∀ es : List Event, (∀ e ∈ es, keepsSession A e = true) →
        (∃ rec2, (run (run s (firstConsume A p1 k1 c1 t1)) es).transports.lookup A = some rec2
          ∧ rec2.consumerTransports = [t1])
        ∧ ∀ p2 k2 c2 can, EngineCall.createWebRtcTransport
            ∉ calls (step (run (run s (firstConsume A p1 k1 c1 t1)) es)
                (.consume A p2 k2 c2 can)).effects)
    ∧ (∀ p2 k2 c2 t2,
        (trace s (overlappingConsumes A p1 k1 c1 t1 p2 k2 c2 t2)).map (fun o => calls o.effects)
          = [[.createWebRtcTransport], [.createWebRtcTransport], [], []]
        ∧ (run s (overlappingConsumes A p1 k1 c1 t1 p2 k2 c2 t2)).transports.lookup A
          = some ⟨rec.producerTransport, [t1, t2]⟩) := by
  constructor
  · intro es hes
    obtain ⟨⟨rec2, hr2, hc2⟩, _⟩ :=
      sole_run A t1 _ es hes (sole_after_firstConsume s A rec p1 k1 c1 t1 hA hT hE hQ).1
    exact ⟨⟨rec2, hr2, hc2⟩, fun p2 k2 c2 can =>
      consume_with_transport_creates_none _ A rec2 t1 p2 k2 c2 can hr2 hc2⟩
  · intro p2 k2 c2 t2
    have h1 : step s (.consume A p1 k1 c1 true)
        = suspend s (.consumeCreate A p1 c1) .createWebRtcTransport := by
      simp [step, hA, consume_start, hT, hE]
    have h2 : step (suspend s (.consumeCreate A p1 c1) .createWebRtcTransport).state
          (.consume A p2 k2 c2 true)
        = suspend (suspend s (.consumeCreate A p1 c1) .createWebRtcTransport).state
            (.consumeCreate A p2 c2) .createWebRtcTransport := by
      simp [step, hA, consume_start, hT, hE, suspend]
    have hk1 : Cont.consumeCreate A p1 c1 ∉ s.pending := by
      intro hk; have := hQ _ hk rfl; cases this
    have hk2 : Cont.consumeCreate A p2 c2 ∉ s.pending := by
      intro hk; have := hQ _ hk rfl; cases this
    have he1 : (s.pending ++ [Cont.consumeCreate A p1 c1, Cont.consumeCreate A p2 c2]).erase
          (Cont.consumeCreate A p1 c1) = s.pending ++ [Cont.consumeCreate A p2 c2] := by
      have : s.pending ++ [Cont.consumeCreate A p1 c1, Cont.consumeCreate A p2 c2]
          = (s.pending ++ [Cont.consumeCreate A p1 c1]) ++ [Cont.consumeCreate A p2 c2] := by
        simp
      rw [this, List.erase_append_left _ (by simp), erase_append_self_erase _ _ hk1]
    have he2 : (s.pending ++ [Cont.consumeCreate A p2 c2, Cont.dtlsAck A t1 p1 c1]).erase
          (Cont.consumeCreate A p2 c2) = s.pending ++ [Cont.dtlsAck A t1 p1 c1] := by
      have : s.pending ++ [Cont.consumeCreate A p2 c2, Cont.dtlsAck A t1 p1 c1]
          = (s.pending ++ [Cont.consumeCreate A p2 c2]) ++ [Cont.dtlsAck A t1 p1 c1] := by
        simp
      rw [this, List.erase_append_left _ (by simp), erase_append_self_erase _ _ hk2]
    simp only [overlappingConsumes, trace, run, h1, h2]
    simp [suspend, step, resume, consume_afterCreate, hT, hE, he1, he2, lookup_jsSet_self, calls]

/-- One of the amended C9's instances: in `demoState`, after the first `consume`
of `"b"` has stored transport 3, a second `consume` of `"b"` is served on
transport 3 and the record of `"b"` still holds that one transport. -/
theorem consume_single_transport_after_store_witness :
    "b" ∈ demoState.sockets
    ∧ (∀ k ∈ demoState.pending, k.client = "b" → k.createsConsumerTransport = false)
    ∧ ∃ rec2,
        (run (run demoState (firstConsume "b" 5 "video" 9 ⟨3, 30, 31, 32⟩))
          [.consume "b" 8 "audio" 9 true,
           .settle (.consumeDirect "b" ⟨3, 30, 31, 32⟩ 8)
             (.consumer (.ok ⟨4, "audio", 40⟩))]).transports.lookup "b" = some rec2
        ∧ rec2.consumerTransports = [⟨3, 30, 31, 32⟩] :=
  ⟨by decide, by decide,
    ((consume_single_transport_after_store demoState "b" ⟨none, []⟩ 5 "video" 9 ⟨3, 30, 31, 32⟩
      (by decide) (by decide) rfl (by decide)).1
        [.consume "b" 8 "audio" 9 true,
         .settle (.consumeDirect "b" ⟨3, 30, 31, 32⟩ 8) (.consumer (.ok ⟨4, "audio", 40⟩))]
        (by decide)).1⟩

/-! ## Two observations on the handlers -/

/-- The direct branch of `consume` does not look at the state of the transport:
in `demoState`, once the first `consume` of `"b"` has stored transport 3 and
while the client's DTLS parameters are still awaited, a second `consume` of
`"b"` calls `consume` on transport 3, which the engine has not connected, and
its result is answered. -/
theorem second_consume_served_before_connect :
    (run demoState (firstConsume "b" 5 "video" 9 ⟨3, 30, 31, 32⟩)).dtlsConnected = []
    ∧ (trace (run demoState (firstConsume "b" 5 "video" 9 ⟨3, 30, 31, 32⟩))
        [.consume "b" 8 "audio" 9 true,
         .settle (.consumeDirect "b" ⟨3, 30, 31, 32⟩ 8)
           (.consumer (.ok ⟨4, "audio", 40⟩))]).map (fun o => o.effects)
      = [[Effect.call (.consume 3 8 9)], [Effect.reply "b" (.consumed 4 8 "audio" 40)]] := by
  decide

/-- The `disconnect` handler closes the transports that the record holds: after
`twiceCreated` the record of `"a"` holds transport 2 only, and the `disconnect`
of `"a"` calls `close()` on transport 2 and on nothing else. -/
theorem replaced_transport_not_closed :
    calls (departure (run init twiceCreated) "a" (fun _ => none)).effects
      = [.closeTransport 2] := by
  decide

/-! ## Further instances -/

/-- One of the amended C10's instances: in `mixedSession` the socket `"b"`
replaces its producer-side transport while `"a"` never does; the producer of
`"a"` is on the current transport of `"a"`, and the consumer of `"b"` on a
transport of `"b"`. -/
theorem handles_on_session_transports_witness :
    neverReplacesFor "a" init mixedSession = true
    ∧ neverReplacesFor "b" init mixedSession = false
    ∧ (run init mixedSession).producers.lookup "a" = some [⟨7, "video", 1⟩]
    ∧ (run init mixedSession).consumers.lookup "b" = some [⟨4, "video", 40, 3⟩]
    ∧ ConsumersOnHeldTransports (run init mixedSession)
    ∧ ProducersOnCurrentTransport (run init mixedSession) "a" :=
  ⟨by decide, by decide, by decide, by decide, (handles_on_session_transports mixedSession).1,
    (handles_on_session_transports mixedSession).2 "a" (by decide)⟩

/-- One of C2's instances: `"b"` asks for the producers of `demoState`. -/
theorem produceDone_announces_every_producer_witness :
    emitsTo "b" (produceDone demoState "b").effects = [.newProducer 5 "a" "video"]
    ∧ (produceDone demoState "b").state = demoState :=
  ⟨(produceDone_announces_every_producer demoState "b").2.1,
    (produceDone_announces_every_producer demoState "b").1⟩

end Sfu
